import Mathlib

/-!
# The logging facade of cow (`log.go`)

A shallow embedding of `log.go`: the package-level variables become one `State`
record, `initLog` and the eight emit methods become functions on it, and the
outside world they touch (console, files, clock, call stack) is passed
explicitly.  The Go libraries that `log.go` calls (`log`, `os`, `fmt`, and the
colour package) are not part of the repository; the parts of them that `log.go`
relies on are written out below, each marked as library code.
-/

namespace Cow

/-! ## Values handed to the formatting verbs -/

/-- An operand of `Printf`/`Println` (`interface{}` in the source). -/
inductive Arg where
  | str (s : String)
  | int (i : Int)
  | bool (b : Bool)
deriving DecidableEq, Repr

/-- Default (`%v`) rendering of an operand, as `fmt` prints it. -/
def Arg.render : Arg → String
  | .str s => s
  | .int i => toString i
  | .bool true => "true"
  | .bool false => "false"

/-- Library `fmt.Sprintln`: operands in default format, a space between every
two of them, and a newline appended. -/
def Sprintln (args : List Arg) : String :=
  " ".intercalate (args.map Arg.render) ++ "\n"

/-! ## Writers and the world they write to -/

/-- An `*os.File` returned by `os.OpenFile`: its name, the flag and permission
it was opened with, and the descriptor. -/
structure File where
  name : String
  flag : Nat
  perm : Nat
  fd : Nat
deriving DecidableEq, Repr

/-- The values an `io.Writer` variable of `log.go` can hold: the zero value
`nil`, the two console streams, or an opened file. -/
inductive Writer where
  | nil
  | stdout
  | stderr
  | file (f : File)
deriving DecidableEq, Repr

/-- What can be observed outside the process: the bytes on the two console
streams, the contents of the files by name, and the next free descriptor. -/
structure World where
  stdout : String
  stderr : String
  files : List (String × String)
  nextFd : Nat
deriving DecidableEq, Repr

/-- Append `data` to the file called `name`, creating it when missing. -/
def appendFile (name data : String) : List (String × String) → List (String × String)
  | [] => [(name, data)]
  | (n, c) :: rest =>
    if n = name then (n, c ++ data) :: rest else (n, c) :: appendFile name data rest

/-- Contents of the file called `name`, if it exists. -/
def readFile (name : String) : List (String × String) → Option String
  | [] => none
  | (n, c) :: rest => if n = name then some c else readFile name rest

/-- Method `Write` of an `io.Writer`.  Calling it on the nil interface value is
a nil dereference (`none`); a file opened with `O_APPEND` grows at its end. -/
def Writer.Write (o : Writer) (data : String) (w : World) : Option World :=
  match o with
  | .nil => none
  | .stdout => some { w with stdout := w.stdout ++ data }
  | .stderr => some { w with stderr := w.stderr ++ data }
  | .file f => some { w with files := appendFile f.name data w.files }

/-- The filesystem and path helper that `initLog` depends on: `expandTilde`
(defined elsewhere in the repository) and, for every path, whether opening it
fails and with which error text. -/
structure Env where
  expandTilde : String → String
  openErr : String → Option String

def O_WRONLY : Nat := 1
def O_CREATE : Nat := 64
def O_APPEND : Nat := 1024

/-- Library `os.OpenFile`: on failure the error text and an untouched world; on
success a fresh handle, the file being created empty when `O_CREATE` is set
and it does not exist yet. -/
def OpenFile (env : Env) (name : String) (flag perm : Nat) (w : World) :
    Except String File × World :=
  match env.openErr name with
  | some err => (.error err, w)
  | none =>
    let files :=
      if flag &&& O_CREATE ≠ 0 ∧ readFile name w.files = none then
        w.files ++ [(name, "")]
      else w.files
    (.ok ⟨name, flag, perm, w.nextFd⟩, { w with files := files, nextFd := w.nextFd + 1 })

/-- Library `fmt.Printf` after formatting: the text goes to standard output. -/
def consolePrint (text : String) (w : World) : World :=
  { w with stdout := w.stdout ++ text }

/-! ## The `log` package -/

def Ldate : Nat := 1
def Ltime : Nat := 2
def Lmicroseconds : Nat := 4
def Llongfile : Nat := 8
def Lshortfile : Nat := 16
def LstdFlags : Nat := Ldate ||| Ltime

/-- A `*log.Logger`: destination, line prefix and header flags. -/
structure Logger where
  out : Writer
  pfx : String
  flag : Nat
deriving DecidableEq, Repr

/-- Library `log.New`. -/
def New (out : Writer) (pfx : String) (flag : Nat) : Logger := ⟨out, pfx, flag⟩

/-- Library `(*Logger).SetOutput`. -/
def Logger.SetOutput (l : Logger) (o : Writer) : Logger := { l with out := o }

/-- Wall-clock reading taken by `Output`. -/
structure Time where
  year : Nat
  month : Nat
  day : Nat
  hour : Nat
  min : Nat
  sec : Nat
  nsec : Nat
deriving DecidableEq, Repr

/-- One entry of the call stack: source file and line of the call. -/
structure Frame where
  file : String
  line : Nat
deriving DecidableEq, Repr

/-- The decimal digit `'0' + d`. -/
def digit (d : Nat) : Char := Char.ofNat (48 + d % 10)

/-- The loop of the library's `itoa`: peel decimal digits off `i` while
`i >= 10 || wid > 1`; the counter is the room left in its 20-byte buffer. -/
def itoaLoop : Nat → Nat → Int → List Char → Nat × List Char
  | 0, i, _, acc => (i, acc)
  | room + 1, i, wid, acc =>
    if i ≥ 10 ∨ wid > 1 then itoaLoop room (i / 10) (wid - 1) (digit (i % 10) :: acc)
    else (i, acc)

/-- Library `itoa`: `i` in decimal, zero-padded to `wid` digits. -/
def itoa (i : Nat) (wid : Int) : String :=
  let r := itoaLoop 19 i wid []
  String.mk (digit r.1 :: r.2)

/-- The scan of `formatHeader` for the last `/` at an index above zero. -/
def shortLoop (cs : List Char) : Nat → List Char
  | 0 => cs
  | i + 1 => if cs.get? (i + 1) = some '/' then cs.drop (i + 2) else shortLoop cs i

/-- File name with its directories cut off (`Lshortfile`). -/
def shortFile (file : String) : String :=
  String.mk (shortLoop file.data (file.data.length - 1))

/-- Library `(*Logger).formatHeader`: prefix, then date and time, then
`file:line: `, each only when its flag is set. -/
def formatHeader (l : Logger) (t : Time) (file : String) (line : Nat) : String :=
  let date :=
    if l.flag &&& Ldate ≠ 0 then
      itoa t.year 4 ++ "/" ++ itoa t.month 2 ++ "/" ++ itoa t.day 2 ++ " "
    else ""
  let clock :=
    if l.flag &&& (Ltime ||| Lmicroseconds) ≠ 0 then
      itoa t.hour 2 ++ ":" ++ itoa t.min 2 ++ ":" ++ itoa t.sec 2 ++
        (if l.flag &&& Lmicroseconds ≠ 0 then "." ++ itoa (t.nsec / 1000) 6 else "") ++ " "
    else ""
  let stamp := if l.flag &&& (Ldate ||| Ltime ||| Lmicroseconds) ≠ 0 then date ++ clock else ""
  let place :=
    if l.flag &&& (Lshortfile ||| Llongfile) ≠ 0 then
      (if l.flag &&& Lshortfile ≠ 0 then shortFile file else file) ++ ":" ++ itoa line (-1) ++ ": "
    else ""
  l.pfx ++ stamp ++ place

/-- Library `runtime.Caller(skip)` as seen from inside `Output`: `stack` lists
the frames from `Output` itself outwards. -/
def Caller (stack : List Frame) (skip : Nat) : String × Nat :=
  match stack.get? skip with
  | some f => (f.file, f.line)
  | none => ("???", 0)

/-- The text `Output` hands to the writer: header, message, and a newline
unless the message already ends in one (`len(s) == 0 || s[len(s)-1] != 10`, as
the library reads since Go 1.5). -/
def outputLine (l : Logger) (calldepth : Nat) (s : String) (now : Time)
    (stack : List Frame) : String :=
  let loc := if l.flag &&& (Lshortfile ||| Llongfile) ≠ 0 then Caller stack calldepth else ("", 0)
  let buf := formatHeader l now loc.1 loc.2 ++ s
  if s.data = [] ∨ s.data.getLast? ≠ some '\n' then buf ++ "\n" else buf

/-- Library `(*Logger).Output`: one `Write` of the assembled line. -/
def Logger.Output (l : Logger) (calldepth : Nat) (s : String) (now : Time)
    (stack : List Frame) (w : World) : Option World :=
  l.out.Write (outputLine l calldepth s now stack) w

/-- Library `(*Logger).Printf`, and `log.Printf` on the default logger: format,
then `Output` with call depth 2.  `stack` starts at the frame of the wrapper. -/
def Logger.Printf (l : Logger) (msg : String) (now : Time) (stack : List Frame)
    (w : World) : Option World :=
  l.Output 2 msg now stack w

/-- Library `(*Logger).Println`, and `log.Println` on the default logger. -/
def Logger.Println (l : Logger) (args : List Arg) (now : Time) (stack : List Frame)
    (w : World) : Option World :=
  l.Output 2 (Sprintln args) now stack w

/-! ## The colour package -/

/-- The two rendering modes of the colour package. -/
inductive ColorType where
  | NoColor
  | ANSI
deriving DecidableEq, Repr

/-- The four colours `initLog` asks for. -/
inductive Color where
  | Red
  | Green
  | Yellow
  | Blue
deriving DecidableEq, Repr

/-- ANSI SGR foreground code of a colour. -/
def Color.code : Color → String
  | .Red => "31"
  | .Green => "32"
  | .Yellow => "33"
  | .Blue => "34"

/-- Modelled from the spec: the colour package (`color.Red` and its siblings,
under the mode chosen by `color.SetDefaultColor`) is an external library, not
under src/.  With `NoColor` the text is returned as it is; with `ANSI` it is
wrapped in the escape sequence of that colour and the reset sequence. -/
def Color.paint (c : Color) (mode : ColorType) (text : String) : String :=
  match mode with
  | .NoColor => text
  | .ANSI => "\x1b[" ++ c.code ++ "m" ++ text ++ "\x1b[0m"

/-! ## The package-level variables of `log.go` -/

/-- All variables declared in `log.go`, together with the two library globals
`initLog` assigns (the default logger and the colour mode) and the world. -/
structure State where
  info : Bool
  debug : Bool
  errl : Bool
  dbgRq : Bool
  dbgRep : Bool
  logFile : Writer
  historyFile : Writer
  errorLog : Logger
  debugLog : Logger
  requestLog : Logger
  responseLog : Logger
  historyLog : Logger
  verbose : Bool
  colorize : Bool
  std : Logger
  defaultColor : ColorType
  world : World
deriving DecidableEq, Repr

/-- The command-line switches registered by `init()`. -/
structure Flags where
  info : Bool
  debug : Bool
  errl : Bool
  dbgRq : Bool
  dbgRep : Bool
  verbose : Bool
  colorize : Bool
deriving DecidableEq, Repr

/-- The defaults given to `flag.BoolVar` in `init()`. -/
def flagDefaults : Flags := ⟨true, false, true, false, false, false, false⟩

/-- The state before `initLog` has run: the initialisers of the `var` block,
the switches as parsed from the command line, the default logger as the `log`
package creates it (standard error, no prefix, `LstdFlags`). -/
def boot (fl : Flags) (mode : ColorType) (w : World) : State where
  info := fl.info
  debug := fl.debug
  errl := fl.errl
  dbgRq := fl.dbgRq
  dbgRep := fl.dbgRep
  logFile := Writer.nil
  historyFile := Writer.nil
  errorLog := New Writer.stdout "[ERROR] " (LstdFlags ||| Lshortfile)
  debugLog := New Writer.stdout "[DEBUG] " (LstdFlags ||| Lshortfile)
  requestLog := New Writer.stdout "[>>>>>] " (LstdFlags ||| Lshortfile)
  responseLog := New Writer.stdout "[<<<<<] " (LstdFlags ||| Lshortfile)
  historyLog := New Writer.stdout "" 0
  verbose := fl.verbose
  colorize := fl.colorize
  std := New Writer.stderr "" LstdFlags
  defaultColor := mode
  world := w

/-- The two fields of the global `config` that `initLog` reads. -/
structure Config where
  LogFile : String
  HistoryFile : String
deriving DecidableEq, Repr

/-- How a call ends: it returns, or it panics; either way with the state
reached at that point. -/
inductive Outcome where
  | returned (s : State)
  | panicked (msg : String) (s : State)
deriving DecidableEq, Repr

/-- State carried by an outcome. -/
def Outcome.state : Outcome → State
  | .returned s => s
  | .panicked _ s => s

/-- First half of `initLog` (lines 54-63): resolve the general destination and
point the default logger at it. -/
def resolveLogFile (config : Config) (env : Env) (s : State) : State :=
  let s := { s with logFile := Writer.stdout }
  let s :=
    if config.LogFile ≠ "" then
      match OpenFile env (env.expandTilde config.LogFile)
          (O_CREATE ||| O_WRONLY ||| O_APPEND) 0o600 s.world with
      | (.error err, w) =>
        { s with world :=
            (consolePrint ("Can\x27t open log file, logging to stdout: " ++ err ++ "\n") w) }
      | (.ok f, w) => { s with logFile := Writer.file f, world := w }
    else s
  { s with std := s.std.SetOutput s.logFile }

/-- Second half of `initLog` (lines 68-83), reached when the history path is
not empty. -/
def resolveHistory (config : Config) (env : Env) (s : State) : State :=
  let s :=
    match OpenFile env (env.expandTilde config.HistoryFile)
        (O_CREATE ||| O_WRONLY ||| O_APPEND) 0o600 s.world with
    | (.error err, w) =>
      { s with world :=
          (consolePrint ("Can\x27t open log file, logging to stdout: " ++ err ++ "\n") w) }
    | (.ok f, w) => { s with historyFile := Writer.file f, world := w }
  let s := { s with historyLog := s.historyLog.SetOutput s.historyFile }
  let s :=
    if s.colorize then { s with defaultColor := ColorType.ANSI }
    else { s with defaultColor := ColorType.NoColor }
  let s := { s with
    errorLog := New s.logFile (Color.Red.paint s.defaultColor "[ERROR] ") (LstdFlags ||| Lshortfile) }
  let s := { s with
    debugLog := New s.logFile (Color.Blue.paint s.defaultColor "[DEBUG] ") (LstdFlags ||| Lshortfile) }
  let s := { s with
    requestLog := New s.logFile (Color.Green.paint s.defaultColor "[>>>>>] ") (LstdFlags ||| Lshortfile) }
  { s with
    responseLog := New s.logFile (Color.Yellow.paint s.defaultColor "[<<<<<] ") (LstdFlags ||| Lshortfile) }

/-- Function `initLog` of `log.go`. -/
def initLog (config : Config) (env : Env) (s : State) : Outcome :=
  let s := resolveLogFile config env s
  if config.HistoryFile = "" then
    Outcome.panicked "config.HistoryFile == \"\"" s
  else
    Outcome.returned (resolveHistory config env s)

/-! ## The emit methods -/

/-- What an emit call gets from its surroundings: the library `fmt.Sprintf`,
the clock, the path `log.go` was compiled from, the frames of the `log`
package (`Output` itself and the wrapper that calls it), and the frames of the
callers of the facade method, the direct caller first. -/
structure Ctx where
  Sprintf : String → List Arg → String
  now : Time
  logGo : String
  libOutput : Frame
  libWrapper : Frame
  callers : List Frame

/-- Result of a write: a nil writer is a nil dereference. -/
def finish (s : State) : Option World → Outcome
  | some w => Outcome.returned { s with world := w }
  | none => Outcome.panicked "invalid memory address or nil pointer dereference" s

/-- Method `Printf` of `infoLogging` (line 86). -/
def infoLogging.Printf (d : Bool) (format : String) (args : List Arg) (ctx : Ctx)
    (s : State) : Outcome :=
  if d then
    finish s (s.std.Printf (ctx.Sprintf format args) ctx.now
      (ctx.libOutput :: ctx.libWrapper :: ⟨ctx.logGo, 88⟩ :: ctx.callers) s.world)
  else Outcome.returned s

/-- Method `Println` of `infoLogging` (line 92). -/
def infoLogging.Println (d : Bool) (args : List Arg) (ctx : Ctx) (s : State) : Outcome :=
  if d then
    finish s (s.std.Println args ctx.now
      (ctx.libOutput :: ctx.libWrapper :: ⟨ctx.logGo, 94⟩ :: ctx.callers) s.world)
  else Outcome.returned s

/-- Method `Printf` of `debugLogging` (line 98). -/
def debugLogging.Printf (d : Bool) (format : String) (args : List Arg) (ctx : Ctx)
    (s : State) : Outcome :=
  if d then
    finish s (s.debugLog.Output 2 (ctx.Sprintf format args) ctx.now
      (ctx.libOutput :: ⟨ctx.logGo, 100⟩ :: ctx.callers) s.world)
  else Outcome.returned s

/-- Method `Println` of `debugLogging` (line 105). -/
def debugLogging.Println (d : Bool) (args : List Arg) (ctx : Ctx) (s : State) : Outcome :=
  if d then
    finish s (s.debugLog.Println args ctx.now
      (ctx.libOutput :: ctx.libWrapper :: ⟨ctx.logGo, 107⟩ :: ctx.callers) s.world)
  else Outcome.returned s

/-- Method `Printf` of `errorLogging` (line 111). -/
def errorLogging.Printf (d : Bool) (format : String) (args : List Arg) (ctx : Ctx)
    (s : State) : Outcome :=
  if d then
    finish s (s.errorLog.Printf (ctx.Sprintf format args) ctx.now
      (ctx.libOutput :: ctx.libWrapper :: ⟨ctx.logGo, 113⟩ :: ctx.callers) s.world)
  else Outcome.returned s

/-- Method `Println` of `errorLogging` (line 117). -/
def errorLogging.Println (d : Bool) (args : List Arg) (ctx : Ctx) (s : State) : Outcome :=
  if d then
    finish s (s.errorLog.Println args ctx.now
      (ctx.libOutput :: ctx.libWrapper :: ⟨ctx.logGo, 119⟩ :: ctx.callers) s.world)
  else Outcome.returned s

/-- Method `Printf` of `requestLogging` (line 123). -/
def requestLogging.Printf (d : Bool) (format : String) (args : List Arg) (ctx : Ctx)
    (s : State) : Outcome :=
  if d then
    finish s (s.requestLog.Output 3 (ctx.Sprintf format args) ctx.now
      (ctx.libOutput :: ⟨ctx.logGo, 125⟩ :: ctx.callers) s.world)
  else Outcome.returned s

/-- Method `Printf` of `responseLogging` (line 130). -/
def responseLogging.Printf (d : Bool) (format : String) (args : List Arg) (ctx : Ctx)
    (s : State) : Outcome :=
  if d then
    finish s (s.responseLog.Printf (ctx.Sprintf format args) ctx.now
      (ctx.libOutput :: ctx.libWrapper :: ⟨ctx.logGo, 132⟩ :: ctx.callers) s.world)
  else Outcome.returned s

/-- The eight emit methods of `log.go`. -/
inductive Method where
  | infoPrintf
  | infoPrintln
  | debugPrintf
  | debugPrintln
  | errorPrintf
  | errorPrintln
  | requestPrintf
  | responsePrintf
deriving DecidableEq, Repr

/-- Call of the emit method `m` on a receiver whose value is `d`. -/
def emit (m : Method) (d : Bool) (format : String) (args : List Arg) (ctx : Ctx)
    (s : State) : Outcome :=
  match m with
  | .infoPrintf => infoLogging.Printf d format args ctx s
  | .infoPrintln => infoLogging.Println d args ctx s
  | .debugPrintf => debugLogging.Printf d format args ctx s
  | .debugPrintln => debugLogging.Println d args ctx s
  | .errorPrintf => errorLogging.Printf d format args ctx s
  | .errorPrintln => errorLogging.Println d args ctx s
  | .requestPrintf => requestLogging.Printf d format args ctx s
  | .responsePrintf => responseLogging.Printf d format args ctx s

/-- The logger a method writes through. -/
def Method.sink (m : Method) (s : State) : Logger :=
  match m with
  | .infoPrintf => s.std
  | .infoPrintln => s.std
  | .debugPrintf => s.debugLog
  | .debugPrintln => s.debugLog
  | .errorPrintf => s.errorLog
  | .errorPrintln => s.errorLog
  | .requestPrintf => s.requestLog
  | .responsePrintf => s.responseLog

/-- The tag of the channel a method belongs to; the info channel has none. -/
def Method.tag (m : Method) : String :=
  match m with
  | .infoPrintf => ""
  | .infoPrintln => ""
  | .debugPrintf => "[DEBUG]"
  | .debugPrintln => "[DEBUG]"
  | .errorPrintf => "[ERROR]"
  | .errorPrintln => "[ERROR]"
  | .requestPrintf => "[>>>>>]"
  | .responsePrintf => "[<<<<<]"

/-- The message a method hands to the logger: `fmt.Sprintln` of the operands
for `Println`, `fmt.Sprintf` of format and operands for `Printf`. -/
def Method.message (m : Method) (format : String) (args : List Arg) (ctx : Ctx) : String :=
  match m with
  | .infoPrintln => Sprintln args
  | .debugPrintln => Sprintln args
  | .errorPrintln => Sprintln args
  | _ => ctx.Sprintf format args

/-- A text without its final newline, when it ends in one. -/
def chomp (t : String) : String :=
  if t.data.getLast? = some '\n' then String.mk t.data.dropLast else t

/-- The message a method hands to the logger, without its final newline when
it ends in one. -/
def Method.body (m : Method) (format : String) (args : List Arg) (ctx : Ctx) : String :=
  chomp (m.message format args ctx)

/-- Date and time as the header prints them under `LstdFlags`:
`2006/01/02 15:04:05 `. -/
def timestamp (t : Time) : String :=
  itoa t.year 4 ++ "/" ++ itoa t.month 2 ++ "/" ++ itoa t.day 2 ++ " " ++
    itoa t.hour 2 ++ ":" ++ itoa t.min 2 ++ ":" ++ itoa t.sec 2 ++ " "

/-- A call site as the header prints it under `Lshortfile`: `file.go:23: `. -/
def location (file : String) (line : Nat) : String :=
  shortFile file ++ ":" ++ itoa line (-1) ++ ": "

/-- The prefix of the channel of a method when the colour mode is `mode`; the
info channel has none. -/
def Method.painted (m : Method) (mode : ColorType) : String :=
  match m with
  | .infoPrintf => ""
  | .infoPrintln => ""
  | .debugPrintf => Color.Blue.paint mode "[DEBUG] "
  | .debugPrintln => Color.Blue.paint mode "[DEBUG] "
  | .errorPrintf => Color.Red.paint mode "[ERROR] "
  | .errorPrintln => Color.Red.paint mode "[ERROR] "
  | .requestPrintf => Color.Green.paint mode "[>>>>>] "
  | .responsePrintf => Color.Yellow.paint mode "[<<<<<] "

/-- The call site a method reports: none on the info channel, whose logger has
no file flag; the frame `runtime.Caller` selects at depth two or three for the
debug and request `Printf`; the line of the facade method for the others. -/
def Method.site (m : Method) (ctx : Ctx) : String :=
  match m with
  | .infoPrintf => ""
  | .infoPrintln => ""
  | .debugPrintf =>
    location (Caller (ctx.libOutput :: ⟨ctx.logGo, 100⟩ :: ctx.callers) 2).1
      (Caller (ctx.libOutput :: ⟨ctx.logGo, 100⟩ :: ctx.callers) 2).2
  | .debugPrintln => location ctx.logGo 107
  | .errorPrintf => location ctx.logGo 113
  | .errorPrintln => location ctx.logGo 119
  | .requestPrintf =>
    location (Caller (ctx.libOutput :: ⟨ctx.logGo, 125⟩ :: ctx.callers) 3).1
      (Caller (ctx.libOutput :: ⟨ctx.logGo, 125⟩ :: ctx.callers) 3).2
  | .responsePrintf => location ctx.logGo 132

/-- A string without a newline character. -/
def NoNewline (t : String) : Prop := Char.ofNat 10 ∉ t.data

instance (t : String) : Decidable (NoNewline t) := by
  unfold NoNewline; infer_instance

/-- The states the program can be in: the one before `initLog`, and whatever a
returning `initLog` or emit call makes of a state it can be in. -/
inductive Reachable : State → Prop where
  | start (fl : Flags) (mode : ColorType) (w : World) : Reachable (boot fl mode w)
  | init (config : Config) (env : Env) (s t : State) :
      Reachable s → initLog config env s = Outcome.returned t → Reachable t
  | call (m : Method) (d : Bool) (format : String) (args : List Arg) (ctx : Ctx)
      (s t : State) :
      Reachable s → emit m d format args ctx s = Outcome.returned t → Reachable t

/-! ## Where a sink points, leaving the descriptor aside -/

/-- The destination behind a writer: nothing, a console stream, or the file of
that name opened with that flag and permission. -/
inductive Dest where
  | nowhere
  | console
  | errConsole
  | path (name : String) (flag : Nat) (perm : Nat)
deriving DecidableEq, Repr

/-- Destination of a writer. -/
def Writer.dest : Writer → Dest
  | .nil => Dest.nowhere
  | .stdout => Dest.console
  | .stderr => Dest.errConsole
  | .file f => Dest.path f.name f.flag f.perm

/-- Destination, prefix and flags of one sink. -/
structure SinkShape where
  dest : Dest
  pfx : String
  flag : Nat
deriving DecidableEq, Repr

/-- Shape of a logger. -/
def Logger.shape (l : Logger) : SinkShape := ⟨l.out.dest, l.pfx, l.flag⟩

/-- The part of the state that says where every sink writes and how: the two
destination variables, the default logger, the four regular sinks, the history
sink and the colour mode. -/
structure Shape where
  logFile : Dest
  historyFile : Dest
  std : SinkShape
  errorLog : SinkShape
  debugLog : SinkShape
  requestLog : SinkShape
  responseLog : SinkShape
  historyLog : SinkShape
  defaultColor : ColorType
deriving DecidableEq, Repr

/-- Shape of a state. -/
def State.shape (s : State) : Shape where
  logFile := s.logFile.dest
  historyFile := s.historyFile.dest
  std := s.std.shape
  errorLog := s.errorLog.shape
  debugLog := s.debugLog.shape
  requestLog := s.requestLog.shape
  responseLog := s.responseLog.shape
  historyLog := s.historyLog.shape
  defaultColor := s.defaultColor

/-! ## Concrete inputs used in the examples -/

/-- A world with nothing on the console and no files. -/
def emptyWorld : World := ⟨"", "", [], 3⟩

/-- A filesystem in which every open succeeds. -/
def openAll : Env := ⟨id, fun _ => none⟩

/-- A filesystem in which every open fails. -/
def openNone : Env := ⟨id, fun _ => some "permission denied"⟩

/-- The state before `initLog` with the default switches. -/
def bootDefault : State := boot flagDefaults ColorType.NoColor emptyWorld

/-- The state before `initLog` when `-color` was given. -/
def bootColor : State :=
  boot { flagDefaults with colorize := true } ColorType.NoColor emptyWorld

/-- The direct caller in the examples, `proxy.go:40`. -/
def sampleCaller : Frame := ⟨"/src/cow/proxy.go", 40⟩

/-- The caller of the direct caller in the examples, `main.go:7`. -/
def sampleOuter : Frame := ⟨"/src/cow/main.go", 7⟩

/-- A call made from `proxy.go:40`, itself called from `main.go:7`, on
7 March 2015 at 09:05:01.  Its `Sprintf` returns the format, which is what
`fmt.Sprintf` does for a format without verbs and no operands. -/
def sampleCtx : Ctx where
  Sprintf := fun format _ => format
  now := ⟨2015, 3, 7, 9, 5, 1, 0⟩
  logGo := "/src/cow/log.go"
  libOutput := ⟨"/go/src/log/log.go", 172⟩
  libWrapper := ⟨"/go/src/log/log.go", 180⟩
  callers := [sampleCaller, sampleOuter]

/-! ## Abbreviations used in the statements -/

/-- The diagnostic both branches of `initLog` print when an open fails. -/
def diagnostic (err : String) : String :=
  "Can\x27t open log file, logging to stdout: " ++ err ++ "\n"

/-- The world after a successful `OpenFile` of `name`. -/
def opened (name : String) (flag : Nat) (w : World) : World :=
  { w with
    files := if flag &&& O_CREATE ≠ 0 ∧ readFile name w.files = none then
      w.files ++ [(name, "")] else w.files
    nextFd := w.nextFd + 1 }

/-- The colour mode `initLog` selects for a value of `colorize`. -/
def modeOf (colorize : Bool) : ColorType :=
  if colorize then ColorType.ANSI else ColorType.NoColor

/-- The four regular sinks as `initLog` builds them on destination `o`. -/
def withSinks (s : State) (o : Writer) (mode : ColorType) : State :=
  { s with
    defaultColor := mode
    errorLog := New o (Color.Red.paint mode "[ERROR] ") (LstdFlags ||| Lshortfile)
    debugLog := New o (Color.Blue.paint mode "[DEBUG] ") (LstdFlags ||| Lshortfile)
    requestLog := New o (Color.Green.paint mode "[>>>>>] ") (LstdFlags ||| Lshortfile)
    responseLog := New o (Color.Yellow.paint mode "[<<<<<] ") (LstdFlags ||| Lshortfile) }

/-- What every state the program can be in satisfies: the default logger and
the four regular sinks have a writer, the default logger has no prefix and the
flags `LstdFlags`, the four sinks have the flags `LstdFlags|Lshortfile`, and
the four prefixes are the tags painted in some colour mode. -/
def Good (s : State) : Prop :=
  s.std.out ≠ Writer.nil ∧ s.std.pfx = "" ∧ s.std.flag = LstdFlags ∧
  s.errorLog.out ≠ Writer.nil ∧ s.debugLog.out ≠ Writer.nil ∧
  s.requestLog.out ≠ Writer.nil ∧ s.responseLog.out ≠ Writer.nil ∧
  s.errorLog.flag = LstdFlags ||| Lshortfile ∧ s.debugLog.flag = LstdFlags ||| Lshortfile ∧
  s.requestLog.flag = LstdFlags ||| Lshortfile ∧
  s.responseLog.flag = LstdFlags ||| Lshortfile ∧
  ∃ mode : ColorType,
    s.errorLog.pfx = Color.Red.paint mode "[ERROR] " ∧
    s.debugLog.pfx = Color.Blue.paint mode "[DEBUG] " ∧
    s.requestLog.pfx = Color.Green.paint mode "[>>>>>] " ∧
    s.responseLog.pfx = Color.Yellow.paint mode "[<<<<<] "

/-! ## Disabled channels -/

/-- A call on a false receiver returns the state it was given. -/
theorem emit_false (m : Method) (format : String) (args : List Arg) (ctx : Ctx)
    (s : State) : emit m false format args ctx s = Outcome.returned s := by
  cases m <;> rfl

/-- C1: every emit method called on a receiver that is false returns without
writing a byte anywhere and leaves the whole state as it was. -/
theorem emit_disabled_is_noop (m : Method) (format : String) (args : List Arg)
    (ctx : Ctx) (s : State) :
    emit m false format args ctx s = Outcome.returned s ∧
      (emit m false format args ctx s).state.world = s.world := by
  cases m <;> exact ⟨rfl, rfl⟩

/-! ## Before `initLog` -/

/-- Writing through a logger whose writer is not nil succeeds. -/
theorem Output_isSome (l : Logger) (k : Nat) (msg : String) (now : Time)
    (stack : List Frame) (w : World) (h : l.out ≠ Writer.nil) :
    ∃ w', l.Output k msg now stack w = some w' := by
  unfold Logger.Output Writer.Write
  cases hout : l.out with
  | nil => exact absurd hout h
  | stdout => exact ⟨_, rfl⟩
  | stderr => exact ⟨_, rfl⟩
  | file f => exact ⟨_, rfl⟩

/-- A write through a logger whose writer is not nil ends in a return. -/
theorem finish_Output (s : State) (l : Logger) (k : Nat) (msg : String) (now : Time)
    (stack : List Frame) (w : World) (h : l.out ≠ Writer.nil) :
    ∃ w', finish s (l.Output k msg now stack w) = Outcome.returned { s with world := w' } := by
  obtain ⟨w', hw⟩ := Output_isSome l k msg now stack w h
  exact ⟨w', by rw [hw]; rfl⟩

/-- An enabled or disabled emit call returns when the sink has a writer. -/
theorem emit_returns (m : Method) (d : Bool) (format : String) (args : List Arg)
    (ctx : Ctx) (s : State) (h : (m.sink s).out ≠ Writer.nil) :
    ∃ w', emit m d format args ctx s = Outcome.returned { s with world := w' } := by
  cases d with
  | false => exact ⟨s.world, emit_false m format args ctx s⟩
  | true =>
    cases m <;>
      simp only [emit, infoLogging.Printf, infoLogging.Println, debugLogging.Printf,
        debugLogging.Println, errorLogging.Printf, errorLogging.Println,
        requestLogging.Printf, responseLogging.Printf, Logger.Printf, Logger.Println,
        if_true] <;>
      exact finish_Output s _ _ _ _ _ _ h

/-- C10: before `initLog` the four regular sinks write to standard output with
the plain prefixes and the date, time and short file flags, the history sink
writes to standard output with no prefix and no flags, and every emit call and
every history write returns instead of panicking. -/
theorem boot_sinks_usable (fl : Flags) (mode : ColorType) (w : World) :
    (boot fl mode w).errorLog = ⟨Writer.stdout, "[ERROR] ", Ldate ||| Ltime ||| Lshortfile⟩ ∧
    (boot fl mode w).debugLog = ⟨Writer.stdout, "[DEBUG] ", Ldate ||| Ltime ||| Lshortfile⟩ ∧
    (boot fl mode w).requestLog = ⟨Writer.stdout, "[>>>>>] ", Ldate ||| Ltime ||| Lshortfile⟩ ∧
    (boot fl mode w).responseLog = ⟨Writer.stdout, "[<<<<<] ", Ldate ||| Ltime ||| Lshortfile⟩ ∧
    (boot fl mode w).historyLog = ⟨Writer.stdout, "", 0⟩ ∧
    (∀ (m : Method) (d : Bool) (format : String) (args : List Arg) (ctx : Ctx),
      ∃ t, emit m d format args ctx (boot fl mode w) = Outcome.returned t) ∧
    (∀ (args : List Arg) (now : Time) (stack : List Frame),
      ∃ w', (boot fl mode w).historyLog.Println args now stack w = some w') := by
  refine ⟨rfl, rfl, rfl, rfl, rfl, ?_, ?_⟩
  · intro m d format args ctx
    have h : (m.sink (boot fl mode w)).out ≠ Writer.nil := by
      cases m <;> simp [Method.sink, boot, New]
    obtain ⟨w', hw⟩ := emit_returns m d format args ctx (boot fl mode w) h
    exact ⟨_, hw⟩
  · intro args now stack
    exact Output_isSome _ 2 _ now stack w (by simp [boot, New])

/-! ## What `initLog` does to the state -/

theorem resolveLogFile_empty (config : Config) (env : Env) (s : State)
    (h : config.LogFile = "") :
    resolveLogFile config env s =
      { s with logFile := Writer.stdout, std := s.std.SetOutput Writer.stdout } := by
  simp [resolveLogFile, h]

theorem resolveLogFile_fail (config : Config) (env : Env) (s : State) (err : String)
    (h : config.LogFile ≠ "") (he : env.openErr (env.expandTilde config.LogFile) = some err) :
    resolveLogFile config env s =
      { s with logFile := Writer.stdout, std := s.std.SetOutput Writer.stdout,
               world := consolePrint (diagnostic err) s.world } := by
  simp [resolveLogFile, h, OpenFile, he, diagnostic]

theorem resolveLogFile_ok (config : Config) (env : Env) (s : State)
    (h : config.LogFile ≠ "") (he : env.openErr (env.expandTilde config.LogFile) = none) :
    resolveLogFile config env s =
      { s with
        logFile := Writer.file ⟨env.expandTilde config.LogFile,
          O_CREATE ||| O_WRONLY ||| O_APPEND, 0o600, s.world.nextFd⟩,
        std := s.std.SetOutput (Writer.file ⟨env.expandTilde config.LogFile,
          O_CREATE ||| O_WRONLY ||| O_APPEND, 0o600, s.world.nextFd⟩),
        world := opened (env.expandTilde config.LogFile)
          (O_CREATE ||| O_WRONLY ||| O_APPEND) s.world } := by
  simp [resolveLogFile, h, OpenFile, he, opened]

theorem resolveHistory_fail (config : Config) (env : Env) (s : State) (err : String)
    (he : env.openErr (env.expandTilde config.HistoryFile) = some err) :
    resolveHistory config env s =
      withSinks { s with historyLog := s.historyLog.SetOutput s.historyFile,
                         world := consolePrint (diagnostic err) s.world }
        s.logFile (modeOf s.colorize) := by
  cases hc : s.colorize <;>
    simp [resolveHistory, OpenFile, he, diagnostic, withSinks, modeOf, hc]

theorem resolveHistory_ok (config : Config) (env : Env) (s : State)
    (he : env.openErr (env.expandTilde config.HistoryFile) = none) :
    resolveHistory config env s =
      withSinks { s with
          historyFile := Writer.file ⟨env.expandTilde config.HistoryFile,
            O_CREATE ||| O_WRONLY ||| O_APPEND, 0o600, s.world.nextFd⟩,
          historyLog := s.historyLog.SetOutput (Writer.file
            ⟨env.expandTilde config.HistoryFile,
              O_CREATE ||| O_WRONLY ||| O_APPEND, 0o600, s.world.nextFd⟩),
          world := opened (env.expandTilde config.HistoryFile)
            (O_CREATE ||| O_WRONLY ||| O_APPEND) s.world }
        s.logFile (modeOf s.colorize) := by
  cases hc : s.colorize <;>
    simp [resolveHistory, OpenFile, he, opened, withSinks, modeOf, hc]

/-- With a history path, `initLog` returns. -/
theorem initLog_returns (config : Config) (env : Env) (s : State)
    (h : config.HistoryFile ≠ "") :
    initLog config env s =
      Outcome.returned (resolveHistory config env (resolveLogFile config env s)) := by
  simp [initLog, h]

/-- The general destination after the first half of `initLog` is never nil,
the default logger points at it, and the switches are untouched. -/
theorem resolveLogFile_fields (config : Config) (env : Env) (s : State) :
    (resolveLogFile config env s).logFile ≠ Writer.nil ∧
    (resolveLogFile config env s).std = s.std.SetOutput (resolveLogFile config env s).logFile ∧
    (resolveLogFile config env s).colorize = s.colorize ∧
    (resolveLogFile config env s).historyFile = s.historyFile ∧
    (resolveLogFile config env s).historyLog = s.historyLog := by
  by_cases h : config.LogFile = ""
  · rw [resolveLogFile_empty config env s h]; simp
  · cases he : env.openErr (env.expandTilde config.LogFile) with
    | some err => rw [resolveLogFile_fail config env s err h he]; simp
    | none => rw [resolveLogFile_ok config env s h he]; simp

/-- The second half of `initLog` binds the four regular sinks to the general
destination and leaves that destination and the default logger alone. -/
theorem resolveHistory_fields (config : Config) (env : Env) (s : State) :
    ∃ base : State,
      resolveHistory config env s = withSinks base s.logFile (modeOf s.colorize) ∧
      base.logFile = s.logFile ∧ base.std = s.std ∧ base.colorize = s.colorize := by
  cases he : env.openErr (env.expandTilde config.HistoryFile) with
  | some err => exact ⟨_, resolveHistory_fail config env s err he, rfl, rfl, rfl⟩
  | none => exact ⟨_, resolveHistory_ok config env s he, rfl, rfl, rfl⟩

/-! ## Files only come into being, they are not rewritten, by `initLog` -/

theorem readFile_append (name c : String) (fs more : List (String × String))
    (h : readFile name fs = some c) : readFile name (fs ++ more) = some c := by
  induction fs with
  | nil => simp [readFile] at h
  | cons p rest ih =>
    obtain ⟨n, c0⟩ := p
    by_cases hn : n = name
    · simp only [List.cons_append, readFile, hn, if_true] at h ⊢
      exact h
    · simp only [List.cons_append, readFile, hn, if_false] at h ⊢
      exact ih h

theorem readFile_append_new (name : String) (fs : List (String × String))
    (h : readFile name fs = none) : readFile name (fs ++ [(name, "")]) = some "" := by
  induction fs with
  | nil => simp [readFile]
  | cons p rest ih =>
    obtain ⟨n, c0⟩ := p
    by_cases hn : n = name
    · simp [readFile, hn] at h
    · simp only [List.cons_append, readFile, hn, if_false] at h ⊢
      exact ih h

/-- A successful open leaves the content of every existing file alone. -/
theorem opened_keeps (name : String) (flag : Nat) (w : World) (n c : String)
    (h : readFile n w.files = some c) : readFile n (opened name flag w).files = some c := by
  unfold opened
  by_cases hc : flag &&& O_CREATE ≠ 0 ∧ readFile name w.files = none
  · rw [if_pos hc]
    exact readFile_append n c _ _ h
  · rw [if_neg hc]
    exact h

/-- After a successful open with `O_CREATE` the file exists. -/
theorem opened_exists (name : String) (w : World) :
    ∃ c, readFile name (opened name (O_CREATE ||| O_WRONLY ||| O_APPEND) w).files = some c := by
  unfold opened
  cases hr : readFile name w.files with
  | some c =>
    refine ⟨c, ?_⟩
    simp [hr]
  | none =>
    refine ⟨"", ?_⟩
    have hflag : (O_CREATE ||| O_WRONLY ||| O_APPEND) &&& O_CREATE ≠ 0 := by decide
    simp only [hflag, hr, ne_eq, not_false_eq_true, and_self, if_true]
    exact readFile_append_new name w.files hr

/-- The second half of `initLog` leaves the content of every existing file
alone. -/
theorem resolveHistory_keeps (config : Config) (env : Env) (s : State) (n c : String)
    (h : readFile n s.world.files = some c) :
    readFile n (resolveHistory config env s).world.files = some c := by
  cases he : env.openErr (env.expandTilde config.HistoryFile) with
  | some err =>
    rw [resolveHistory_fail config env s err he]
    simpa [withSinks, consolePrint] using h
  | none =>
    rw [resolveHistory_ok config env s he]
    simpa [withSinks] using opened_keeps _ _ s.world n c h

/-- C4: when the history path is not empty `initLog` returns, and then the
default logger and the error, debug, request and response sinks all write to
the one general destination `logFile`; that destination is standard output when
`config.LogFile` is empty or cannot be opened, and otherwise the file just
opened with create, write-only and append and permission 0600 (which then
exists), not standard output. -/
theorem initLog_general_destination (config : Config) (env : Env) (s : State)
    (h : config.HistoryFile ≠ "") :
    ∃ t, initLog config env s = Outcome.returned t ∧
      t.std.out = t.logFile ∧ t.errorLog.out = t.logFile ∧ t.debugLog.out = t.logFile ∧
      t.requestLog.out = t.logFile ∧ t.responseLog.out = t.logFile ∧
      (config.LogFile = "" ∨ (env.openErr (env.expandTilde config.LogFile)).isSome = true →
        t.logFile = Writer.stdout) ∧
      (config.LogFile ≠ "" ∧ env.openErr (env.expandTilde config.LogFile) = none →
        t.logFile = Writer.file ⟨env.expandTilde config.LogFile,
          O_CREATE ||| O_WRONLY ||| O_APPEND, 0o600, s.world.nextFd⟩ ∧
        t.logFile ≠ Writer.stdout ∧
        ∃ c, readFile (env.expandTilde config.LogFile) t.world.files = some c) := by
  refine ⟨_, initLog_returns config env s h, ?_⟩
  obtain ⟨base, hb, hlog, hstd, -⟩ :=
    resolveHistory_fields config env (resolveLogFile config env s)
  obtain ⟨-, hstd1, -, -, -⟩ := resolveLogFile_fields config env s
  have hl : (resolveHistory config env (resolveLogFile config env s)).logFile =
      (resolveLogFile config env s).logFile := by rw [hb]; simpa [withSinks] using hlog
  refine ⟨?_, ?_, ?_, ?_, ?_, ?_, ?_⟩
  · rw [hl, hb]; simp [withSinks, hstd, hstd1, Logger.SetOutput]
  · rw [hl, hb]; simp [withSinks, New]
  · rw [hl, hb]; simp [withSinks, New]
  · rw [hl, hb]; simp [withSinks, New]
  · rw [hl, hb]; simp [withSinks, New]
  · intro hcase
    rw [hl]
    by_cases he : config.LogFile = ""
    · rw [resolveLogFile_empty config env s he]
    · cases hopen : env.openErr (env.expandTilde config.LogFile) with
      | some err => rw [resolveLogFile_fail config env s err he hopen]
      | none =>
        rcases hcase with h1 | h1
        · exact absurd h1 he
        · simp [hopen] at h1
  · rintro ⟨he, hopen⟩
    rw [hl]
    refine ⟨?_, ?_, ?_⟩
    · rw [resolveLogFile_ok config env s he hopen]
    · rw [resolveLogFile_ok config env s he hopen]; simp
    · obtain ⟨c, hc⟩ := opened_exists (env.expandTilde config.LogFile) s.world
      refine ⟨c, resolveHistory_keeps config env _ _ c ?_⟩
      rw [resolveLogFile_ok config env s he hopen]
      exact hc

/-- C4 at a concrete input: log path `/l`, history path `/h`, every open
succeeds. -/
theorem initLog_general_destination_witness :
    (⟨"/l", "/h"⟩ : Config).HistoryFile ≠ "" ∧
    ∃ t, initLog ⟨"/l", "/h"⟩ openAll bootDefault = Outcome.returned t ∧
      t.std.out = t.logFile ∧ t.errorLog.out = t.logFile ∧ t.debugLog.out = t.logFile ∧
      t.requestLog.out = t.logFile ∧ t.responseLog.out = t.logFile ∧
      ((⟨"/l", "/h"⟩ : Config).LogFile = "" ∨
          (openAll.openErr (openAll.expandTilde (⟨"/l", "/h"⟩ : Config).LogFile)).isSome = true →
        t.logFile = Writer.stdout) ∧
      ((⟨"/l", "/h"⟩ : Config).LogFile ≠ "" ∧
          openAll.openErr (openAll.expandTilde (⟨"/l", "/h"⟩ : Config).LogFile) = none →
        t.logFile = Writer.file ⟨openAll.expandTilde (⟨"/l", "/h"⟩ : Config).LogFile,
          O_CREATE ||| O_WRONLY ||| O_APPEND, 0o600, bootDefault.world.nextFd⟩ ∧
        t.logFile ≠ Writer.stdout ∧
        ∃ c, readFile (openAll.expandTilde (⟨"/l", "/h"⟩ : Config).LogFile) t.world.files
          = some c) :=
  ⟨by decide, initLog_general_destination ⟨"/l", "/h"⟩ openAll bootDefault (by decide)⟩

/-! ## Prefixes and colours -/

/-- The state `initLog` returns, in terms of the colour mode it selected. -/
theorem initLog_sinks (config : Config) (env : Env) (s : State)
    (h : config.HistoryFile ≠ "") :
    ∃ t, initLog config env s = Outcome.returned t ∧
      t.errorLog.pfx = Color.Red.paint (modeOf s.colorize) "[ERROR] " ∧
      t.debugLog.pfx = Color.Blue.paint (modeOf s.colorize) "[DEBUG] " ∧
      t.requestLog.pfx = Color.Green.paint (modeOf s.colorize) "[>>>>>] " ∧
      t.responseLog.pfx = Color.Yellow.paint (modeOf s.colorize) "[<<<<<] " ∧
      t.errorLog.flag = LstdFlags ||| Lshortfile ∧
      t.debugLog.flag = LstdFlags ||| Lshortfile ∧
      t.requestLog.flag = LstdFlags ||| Lshortfile ∧
      t.responseLog.flag = LstdFlags ||| Lshortfile := by
  refine ⟨_, initLog_returns config env s h, ?_⟩
  obtain ⟨base, hb, -, -, -⟩ :=
    resolveHistory_fields config env (resolveLogFile config env s)
  obtain ⟨-, -, hcol, -, -⟩ := resolveLogFile_fields config env s
  rw [hb, hcol]
  simp [withSinks, New]

/-- C6: after `initLog` each of the four regular sinks carries the date, time
and short file flags and the prefix of its own channel: painted red for
`[ERROR] `, blue for `[DEBUG] `, green for `[>>>>>] ` and yellow for `[<<<<<] `
when `colorize` is true, these four colours having four different escape codes,
and exactly the plain strings when `colorize` is false. -/
theorem initLog_sink_prefixes (config : Config) (env : Env) (s : State)
    (h : config.HistoryFile ≠ "") :
    ∃ t, initLog config env s = Outcome.returned t ∧
      t.errorLog.flag = Ldate ||| Ltime ||| Lshortfile ∧
      t.debugLog.flag = Ldate ||| Ltime ||| Lshortfile ∧
      t.requestLog.flag = Ldate ||| Ltime ||| Lshortfile ∧
      t.responseLog.flag = Ldate ||| Ltime ||| Lshortfile ∧
      (s.colorize = true →
        t.errorLog.pfx = Color.Red.paint ColorType.ANSI "[ERROR] " ∧
        t.debugLog.pfx = Color.Blue.paint ColorType.ANSI "[DEBUG] " ∧
        t.requestLog.pfx = Color.Green.paint ColorType.ANSI "[>>>>>] " ∧
        t.responseLog.pfx = Color.Yellow.paint ColorType.ANSI "[<<<<<] ") ∧
      (s.colorize = false →
        t.errorLog.pfx = "[ERROR] " ∧ t.debugLog.pfx = "[DEBUG] " ∧
        t.requestLog.pfx = "[>>>>>] " ∧ t.responseLog.pfx = "[<<<<<] ") ∧
      ([Color.Red, Color.Blue, Color.Green, Color.Yellow].map Color.code).Nodup := by
  obtain ⟨t, ht, h1, h2, h3, h4, f1, f2, f3, f4⟩ := initLog_sinks config env s h
  refine ⟨t, ht, f1, f2, f3, f4, ?_, ?_, by decide⟩
  · intro hc
    rw [hc] at h1 h2 h3 h4
    exact ⟨h1, h2, h3, h4⟩
  · intro hc
    rw [hc] at h1 h2 h3 h4
    exact ⟨h1, h2, h3, h4⟩

/-- C6 at a concrete input: `-color` given, log path `/l`, history path `/h`. -/
theorem initLog_sink_prefixes_witness :
    (⟨"/l", "/h"⟩ : Config).HistoryFile ≠ "" ∧
    ∃ t, initLog ⟨"/l", "/h"⟩ openAll bootColor = Outcome.returned t ∧
      t.errorLog.flag = Ldate ||| Ltime ||| Lshortfile ∧
      t.debugLog.flag = Ldate ||| Ltime ||| Lshortfile ∧
      t.requestLog.flag = Ldate ||| Ltime ||| Lshortfile ∧
      t.responseLog.flag = Ldate ||| Ltime ||| Lshortfile ∧
      (bootColor.colorize = true →
        t.errorLog.pfx = Color.Red.paint ColorType.ANSI "[ERROR] " ∧
        t.debugLog.pfx = Color.Blue.paint ColorType.ANSI "[DEBUG] " ∧
        t.requestLog.pfx = Color.Green.paint ColorType.ANSI "[>>>>>] " ∧
        t.responseLog.pfx = Color.Yellow.paint ColorType.ANSI "[<<<<<] ") ∧
      (bootColor.colorize = false →
        t.errorLog.pfx = "[ERROR] " ∧ t.debugLog.pfx = "[DEBUG] " ∧
        t.requestLog.pfx = "[>>>>>] " ∧ t.responseLog.pfx = "[<<<<<] ") ∧
      ([Color.Red, Color.Blue, Color.Green, Color.Yellow].map Color.code).Nodup :=
  ⟨by decide, initLog_sink_prefixes ⟨"/l", "/h"⟩ openAll bootColor (by decide)⟩

/-- Every header starts with the prefix of the logger. -/
theorem formatHeader_starts (l : Logger) (t : Time) (file : String) (line : Nat) :
    ∃ r, formatHeader l t file line = l.pfx ++ r := by
  unfold formatHeader
  exact ⟨_, String.append_assoc _ _ _⟩

/-- Every line a logger writes starts with its prefix. -/
theorem outputLine_starts (l : Logger) (k : Nat) (msg : String) (now : Time)
    (stack : List Frame) : ∃ r, outputLine l k msg now stack = l.pfx ++ r := by
  unfold outputLine
  simp only []
  obtain ⟨r, hr⟩ := formatHeader_starts l now
    (if l.flag &&& (Lshortfile ||| Llongfile) ≠ 0 then Caller stack k else ("", 0)).1
    (if l.flag &&& (Lshortfile ||| Llongfile) ≠ 0 then Caller stack k else ("", 0)).2
  rw [hr]
  split
  · exact ⟨r ++ msg ++ "\n", by simp only [String.append_assoc]⟩
  · exact ⟨r ++ msg, by simp only [String.append_assoc]⟩

/-- C7, refuted as stated: with `-color` given, the error prefix after
`initLog` is the red one and not the green one, and the request prefix is the
green one and not the red one. -/
theorem initLog_error_not_green :
    ∃ t, initLog ⟨"", "/h"⟩ openAll bootColor = Outcome.returned t ∧
      t.errorLog.pfx = "\x1b[31m[ERROR] \x1b[0m" ∧
      t.errorLog.pfx ≠ Color.Green.paint ColorType.ANSI "[ERROR] " ∧
      t.requestLog.pfx = "\x1b[32m[>>>>>] \x1b[0m" ∧
      t.requestLog.pfx ≠ Color.Red.paint ColorType.ANSI "[>>>>>] " :=
  ⟨_, rfl, by decide, by decide, by decide, by decide⟩

/-- C7, amended: after `initLog` with `colorize` true, every line written
through the error, debug, request and response sink starts with the tag wrapped
in the escape sequence for red, blue, green and yellow respectively; with
`colorize` false no prefix contains the escape character. -/
theorem initLog_tag_colours (config : Config) (env : Env) (s : State)
    (h : config.HistoryFile ≠ "") :
    ∃ t, initLog config env s = Outcome.returned t ∧
      (s.colorize = true →
        ∀ (k : Nat) (msg : String) (now : Time) (stack : List Frame),
          (∃ r, outputLine t.errorLog k msg now stack = "\x1b[31m[ERROR] \x1b[0m" ++ r) ∧
          (∃ r, outputLine t.debugLog k msg now stack = "\x1b[34m[DEBUG] \x1b[0m" ++ r) ∧
          (∃ r, outputLine t.requestLog k msg now stack = "\x1b[32m[>>>>>] \x1b[0m" ++ r) ∧
          (∃ r, outputLine t.responseLog k msg now stack = "\x1b[33m[<<<<<] \x1b[0m" ++ r)) ∧
      (s.colorize = false →
        Char.ofNat 27 ∉ t.errorLog.pfx.data ∧ Char.ofNat 27 ∉ t.debugLog.pfx.data ∧
        Char.ofNat 27 ∉ t.requestLog.pfx.data ∧ Char.ofNat 27 ∉ t.responseLog.pfx.data) := by
  obtain ⟨t, ht, h1, h2, h3, h4, -⟩ := initLog_sinks config env s h
  refine ⟨t, ht, ?_, ?_⟩
  · intro hc k msg now stack
    rw [hc] at h1 h2 h3 h4
    have e1 : t.errorLog.pfx = "\x1b[31m[ERROR] \x1b[0m" := by rw [h1]; decide
    have e2 : t.debugLog.pfx = "\x1b[34m[DEBUG] \x1b[0m" := by rw [h2]; decide
    have e3 : t.requestLog.pfx = "\x1b[32m[>>>>>] \x1b[0m" := by rw [h3]; decide
    have e4 : t.responseLog.pfx = "\x1b[33m[<<<<<] \x1b[0m" := by rw [h4]; decide
    rw [← e1, ← e2, ← e3, ← e4]
    exact ⟨outputLine_starts _ k msg now stack, outputLine_starts _ k msg now stack,
      outputLine_starts _ k msg now stack, outputLine_starts _ k msg now stack⟩
  · intro hc
    rw [hc] at h1 h2 h3 h4
    rw [h1, h2, h3, h4]
    decide

/-- C7, amended, at a concrete input: `-color` given, history path `/h`. -/
theorem initLog_tag_colours_witness :
    (⟨"", "/h"⟩ : Config).HistoryFile ≠ "" ∧
    ∃ t, initLog ⟨"", "/h"⟩ openAll bootColor = Outcome.returned t ∧
      (bootColor.colorize = true →
        ∀ (k : Nat) (msg : String) (now : Time) (stack : List Frame),
          (∃ r, outputLine t.errorLog k msg now stack = "\x1b[31m[ERROR] \x1b[0m" ++ r) ∧
          (∃ r, outputLine t.debugLog k msg now stack = "\x1b[34m[DEBUG] \x1b[0m" ++ r) ∧
          (∃ r, outputLine t.requestLog k msg now stack = "\x1b[32m[>>>>>] \x1b[0m" ++ r) ∧
          (∃ r, outputLine t.responseLog k msg now stack = "\x1b[33m[<<<<<] \x1b[0m" ++ r)) ∧
      (bootColor.colorize = false →
        Char.ofNat 27 ∉ t.errorLog.pfx.data ∧ Char.ofNat 27 ∉ t.debugLog.pfx.data ∧
        Char.ofNat 27 ∉ t.requestLog.pfx.data ∧ Char.ofNat 27 ∉ t.responseLog.pfx.data) :=
  ⟨by decide, initLog_tag_colours ⟨"", "/h"⟩ openAll bootColor (by decide)⟩

/-! ## The empty history path -/

/-- C2, refuted as stated: with both paths empty `initLog` panics, but by then
`logFile` has gone from nil to standard output and the default logger from
standard error to standard output; and with a log path that cannot be opened
the diagnostic is on the console before the panic. -/
theorem initLog_panic_after_general_destination :
    (∃ t, initLog ⟨"", ""⟩ openAll bootDefault =
        Outcome.panicked "config.HistoryFile == \"\"" t ∧
      bootDefault.logFile = Writer.nil ∧ t.logFile = Writer.stdout ∧
      bootDefault.std.out = Writer.stderr ∧ t.std.out = Writer.stdout) ∧
    (∃ t, initLog ⟨"/l", ""⟩ openNone bootDefault =
        Outcome.panicked "config.HistoryFile == \"\"" t ∧
      bootDefault.world.stdout = "" ∧
      t.world.stdout = "Can\x27t open log file, logging to stdout: permission denied\n") :=
  ⟨⟨_, rfl, by decide, by decide, by decide, by decide⟩, ⟨_, rfl, by decide, by decide⟩⟩

/-- C2, amended: with an empty history path `initLog` panics, for every
starting state and log path.  At the panic the four regular sinks, the history
sink, `historyFile` and the colour mode are as before, nothing was written to
standard error and no existing file changed content; `logFile` and the output
of the default logger are the resolved general destination, the log file has
been opened when a path is set, and the diagnostic has been printed to standard
output when that open failed. -/
theorem initLog_empty_history_panics (config : Config) (env : Env) (s : State)
    (h : config.HistoryFile = "") :
    ∃ t, initLog config env s = Outcome.panicked "config.HistoryFile == \"\"" t ∧
      t.errorLog = s.errorLog ∧ t.debugLog = s.debugLog ∧
      t.requestLog = s.requestLog ∧ t.responseLog = s.responseLog ∧
      t.historyLog = s.historyLog ∧ t.historyFile = s.historyFile ∧
      t.defaultColor = s.defaultColor ∧
      t.std = s.std.SetOutput t.logFile ∧
      t.world.stderr = s.world.stderr ∧
      (∀ n c, readFile n s.world.files = some c → readFile n t.world.files = some c) ∧
      (config.LogFile = "" → t.logFile = Writer.stdout ∧ t.world = s.world) ∧
      (∀ err, config.LogFile ≠ "" →
        env.openErr (env.expandTilde config.LogFile) = some err →
        t.logFile = Writer.stdout ∧ t.world = consolePrint (diagnostic err) s.world) ∧
      (config.LogFile ≠ "" → env.openErr (env.expandTilde config.LogFile) = none →
        t.logFile = Writer.file ⟨env.expandTilde config.LogFile,
          O_CREATE ||| O_WRONLY ||| O_APPEND, 0o600, s.world.nextFd⟩ ∧
        t.world = opened (env.expandTilde config.LogFile)
          (O_CREATE ||| O_WRONLY ||| O_APPEND) s.world) := by
  refine ⟨resolveLogFile config env s, by simp [initLog, h], ?_⟩
  by_cases hl : config.LogFile = ""
  · rw [resolveLogFile_empty config env s hl]
    simp [hl]
  · cases he : env.openErr (env.expandTilde config.LogFile) with
    | some err =>
      rw [resolveLogFile_fail config env s err hl he]
      simp [hl, consolePrint]
    | none =>
      rw [resolveLogFile_ok config env s hl he]
      simp only [hl, false_implies, not_false_eq_true, true_implies, true_and, and_true,
        reduceCtorEq, implies_true]
      refine ⟨rfl, ?_⟩
      intro n c hc
      exact opened_keeps _ _ s.world n c hc

/-- C2, amended, at a concrete input: both paths empty. -/
theorem initLog_empty_history_panics_witness :
    (⟨"", ""⟩ : Config).HistoryFile = "" ∧
    ∃ t, initLog ⟨"", ""⟩ openAll bootDefault =
        Outcome.panicked "config.HistoryFile == \"\"" t ∧
      t.errorLog = bootDefault.errorLog ∧ t.debugLog = bootDefault.debugLog ∧
      t.requestLog = bootDefault.requestLog ∧ t.responseLog = bootDefault.responseLog ∧
      t.historyLog = bootDefault.historyLog ∧ t.historyFile = bootDefault.historyFile ∧
      t.defaultColor = bootDefault.defaultColor ∧
      t.std = bootDefault.std.SetOutput t.logFile ∧
      t.world.stderr = bootDefault.world.stderr ∧
      (∀ n c, readFile n bootDefault.world.files = some c →
        readFile n t.world.files = some c) ∧
      ((⟨"", ""⟩ : Config).LogFile = "" →
        t.logFile = Writer.stdout ∧ t.world = bootDefault.world) ∧
      (∀ err, (⟨"", ""⟩ : Config).LogFile ≠ "" →
        openAll.openErr (openAll.expandTilde (⟨"", ""⟩ : Config).LogFile) = some err →
        t.logFile = Writer.stdout ∧
          t.world = consolePrint (diagnostic err) bootDefault.world) ∧
      ((⟨"", ""⟩ : Config).LogFile ≠ "" →
        openAll.openErr (openAll.expandTilde (⟨"", ""⟩ : Config).LogFile) = none →
        t.logFile = Writer.file ⟨openAll.expandTilde (⟨"", ""⟩ : Config).LogFile,
          O_CREATE ||| O_WRONLY ||| O_APPEND, 0o600, bootDefault.world.nextFd⟩ ∧
        t.world = opened (openAll.expandTilde (⟨"", ""⟩ : Config).LogFile)
          (O_CREATE ||| O_WRONLY ||| O_APPEND) bootDefault.world) :=
  ⟨by decide, initLog_empty_history_panics ⟨"", ""⟩ openAll bootDefault (by decide)⟩

/-! ## The history file that cannot be opened -/

/-- C3, the code at the failing input: on the first `initLog`, with history
path `/h` that cannot be opened, the call returns and the diagnostic is on the
console, but the history sink is left with the nil writer, not standard output,
so that the next history write is a nil dereference. -/
theorem initLog_history_open_failure_leaves_nil :
    ∃ t, initLog ⟨"", "/h"⟩ openNone bootDefault = Outcome.returned t ∧
      t.world.stdout = "Can\x27t open log file, logging to stdout: permission denied\n" ∧
      t.historyFile = Writer.nil ∧
      t.historyLog.out = Writer.nil ∧
      t.historyLog.out ≠ Writer.stdout ∧
      t.historyLog.Println [Arg.str "GET http://example.com 200"] sampleCtx.now
        (sampleCtx.libOutput :: sampleCtx.libWrapper :: sampleCtx.callers) t.world = none :=
  ⟨_, rfl, by decide, by decide, by decide, by decide, by decide⟩

/-! ## Running `initLog` again -/

/-- Shape of the state after the first half of `initLog`: it depends on the
starting state only through the default logger, the history variables, the
four sinks and the colour mode. -/
theorem resolveLogFile_shape (config : Config) (env : Env) (s : State) :
    ∃ d : Writer,
      (resolveLogFile config env s).logFile = d ∧
      (resolveLogFile config env s).std = s.std.SetOutput d ∧
      (resolveLogFile config env s).historyFile = s.historyFile ∧
      (resolveLogFile config env s).historyLog = s.historyLog ∧
      (resolveLogFile config env s).colorize = s.colorize ∧
      d.dest = (if config.LogFile = "" then Dest.console else
        match env.openErr (env.expandTilde config.LogFile) with
        | some _ => Dest.console
        | none => Dest.path (env.expandTilde config.LogFile)
            (O_CREATE ||| O_WRONLY ||| O_APPEND) 0o600) := by
  by_cases h : config.LogFile = ""
  · rw [resolveLogFile_empty config env s h]
    exact ⟨_, rfl, rfl, rfl, rfl, rfl, by simp [h, Writer.dest]⟩
  · cases he : env.openErr (env.expandTilde config.LogFile) with
    | some err =>
      rw [resolveLogFile_fail config env s err h he]
      exact ⟨_, rfl, rfl, rfl, rfl, rfl, by simp [h, Writer.dest]⟩
    | none =>
      rw [resolveLogFile_ok config env s h he]
      exact ⟨_, rfl, rfl, rfl, rfl, rfl, by simp [h, Writer.dest]⟩

/-- Shape of the state after the second half of `initLog`. -/
theorem resolveHistory_shape (config : Config) (env : Env) (s : State) :
    ∃ hf : Writer,
      (resolveHistory config env s).shape =
        { logFile := s.logFile.dest
          historyFile := hf.dest
          std := s.std.shape
          errorLog := ⟨s.logFile.dest, Color.Red.paint (modeOf s.colorize) "[ERROR] ",
            LstdFlags ||| Lshortfile⟩
          debugLog := ⟨s.logFile.dest, Color.Blue.paint (modeOf s.colorize) "[DEBUG] ",
            LstdFlags ||| Lshortfile⟩
          requestLog := ⟨s.logFile.dest, Color.Green.paint (modeOf s.colorize) "[>>>>>] ",
            LstdFlags ||| Lshortfile⟩
          responseLog := ⟨s.logFile.dest, Color.Yellow.paint (modeOf s.colorize) "[<<<<<] ",
            LstdFlags ||| Lshortfile⟩
          historyLog := ⟨hf.dest, s.historyLog.pfx, s.historyLog.flag⟩
          defaultColor := modeOf s.colorize } ∧
      (resolveHistory config env s).historyFile = hf ∧
      (resolveHistory config env s).historyLog = s.historyLog.SetOutput hf ∧
      (resolveHistory config env s).colorize = s.colorize ∧
      (resolveHistory config env s).std = s.std ∧
      hf.dest = (match env.openErr (env.expandTilde config.HistoryFile) with
        | some _ => s.historyFile.dest
        | none => Dest.path (env.expandTilde config.HistoryFile)
            (O_CREATE ||| O_WRONLY ||| O_APPEND) 0o600) := by
  cases he : env.openErr (env.expandTilde config.HistoryFile) with
  | some err =>
    rw [resolveHistory_fail config env s err he]
    exact ⟨s.historyFile, rfl, rfl, rfl, rfl, rfl, rfl⟩
  | none =>
    rw [resolveHistory_ok config env s he]
    exact ⟨_, rfl, rfl, rfl, rfl, rfl, rfl⟩

/-- C9: with a history path, a fixed configuration and fixed outcomes of the
two opens, `initLog` returns both times and the second run leaves every sink
where the first put it: the default logger, the four regular sinks and the
history sink have the same destination, prefix and flags, and `logFile`,
`historyFile` and the colour mode are the same.  A sink holds one writer, so
nothing accumulates. -/
theorem initLog_idempotent_shape (config : Config) (env : Env) (s : State)
    (h : config.HistoryFile ≠ "") :
    ∃ t u, initLog config env s = Outcome.returned t ∧
      initLog config env t = Outcome.returned u ∧ u.shape = t.shape := by
  refine ⟨_, _, initLog_returns config env s h, initLog_returns config env _ h, ?_⟩
  obtain ⟨d1, hd1, hs1, hhf1, hhl1, hc1, hdest1⟩ := resolveLogFile_shape config env s
  obtain ⟨f1, hshape1, hf1, hl1, hcol1, hstd1, hfd1⟩ :=
    resolveHistory_shape config env (resolveLogFile config env s)
  obtain ⟨d2, hd2, hs2, hhf2, hhl2, hc2, hdest2⟩ :=
    resolveLogFile_shape config env (resolveHistory config env (resolveLogFile config env s))
  obtain ⟨f2, hshape2, hf2, hl2, hcol2, -, hfd2⟩ :=
    resolveHistory_shape config env
      (resolveLogFile config env (resolveHistory config env (resolveLogFile config env s)))
  have hdd : d2.dest = d1.dest := by rw [hdest1, hdest2]
  have hff : f2.dest = f1.dest := by
    cases he : env.openErr (env.expandTilde config.HistoryFile) with
    | some err =>
      rw [he] at hfd2
      rw [hfd2, hhf2, hf1]
    | none =>
      rw [he] at hfd1 hfd2
      rw [hfd1, hfd2]
  rw [hshape2, hshape1, hd2, hd1, hs2, hs1, hc2, hcol1, hc1, hhl2, hl1, hhl1, hdd, hff]
  simp [Logger.shape, Logger.SetOutput, hdd, hstd1, hs1]

/-- C9 at a concrete input: log path `/l`, history path `/h`, `-color` given. -/
theorem initLog_idempotent_shape_witness :
    (⟨"/l", "/h"⟩ : Config).HistoryFile ≠ "" ∧
    ∃ t u, initLog ⟨"/l", "/h"⟩ openAll bootColor = Outcome.returned t ∧
      initLog ⟨"/l", "/h"⟩ openAll t = Outcome.returned u ∧ u.shape = t.shape :=
  ⟨by decide, initLog_idempotent_shape ⟨"/l", "/h"⟩ openAll bootColor (by decide)⟩

/-! ## The line one call writes -/

theorem NoNewline_append (a b : String) :
    NoNewline (a ++ b) ↔ NoNewline a ∧ NoNewline b := by
  simp [NoNewline, String.data_append, List.mem_append, not_or]

theorem NoNewline_cat (a b : String) (ha : NoNewline a) (hb : NoNewline b) :
    NoNewline (a ++ b) :=
  (NoNewline_append a b).2 ⟨ha, hb⟩

theorem digit_ne_newline (d : Nat) : digit d ≠ Char.ofNat 10 := by
  unfold digit
  have h : d % 10 < 10 := Nat.mod_lt _ (by decide)
  generalize d % 10 = k at h
  interval_cases k <;> decide

theorem itoaLoop_no_newline (room : Nat) :
    ∀ (i : Nat) (wid : Int) (acc : List Char), Char.ofNat 10 ∉ acc →
      Char.ofNat 10 ∉ (itoaLoop room i wid acc).2 := by
  induction room with
  | zero => intro i wid acc h; simpa [itoaLoop] using h
  | succ n ih =>
    intro i wid acc h
    unfold itoaLoop
    split
    · apply ih
      intro hm
      rcases List.mem_cons.1 hm with hd | ht
      · exact digit_ne_newline _ hd.symm
      · exact h ht
    · exact h

theorem itoa_no_newline (i : Nat) (wid : Int) : NoNewline (itoa i wid) := by
  unfold NoNewline itoa
  intro hm
  rcases List.mem_cons.1 hm with hd | ht
  · exact digit_ne_newline _ hd.symm
  · exact itoaLoop_no_newline 19 i wid [] (by simp) ht

theorem timestamp_no_newline (t : Time) : NoNewline (timestamp t) := by
  have sl : NoNewline "/" := by decide
  have sp : NoNewline " " := by decide
  have co : NoNewline ":" := by decide
  unfold timestamp
  exact NoNewline_cat _ _ (NoNewline_cat _ _ (NoNewline_cat _ _ (NoNewline_cat _ _
    (NoNewline_cat _ _ (NoNewline_cat _ _ (NoNewline_cat _ _ (NoNewline_cat _ _
    (NoNewline_cat _ _ (NoNewline_cat _ _ (NoNewline_cat _ _ (itoa_no_newline _ _) sl)
    (itoa_no_newline _ _)) sl) (itoa_no_newline _ _)) sp) (itoa_no_newline _ _)) co)
    (itoa_no_newline _ _)) co) (itoa_no_newline _ _)) sp

/-- A text that ends in a newline is its `chomp` followed by that newline. -/
theorem chomp_newline (t : String) (h : t.data.getLast? = some '\n') :
    chomp t ++ "\n" = t := by
  apply String.ext
  unfold chomp
  rw [if_pos h]
  exact List.dropLast_append_getLast? _ (Option.mem_def.2 h)

/-- Whatever the message, `Output` writes the header, the message without its
final newline, and one newline. -/
theorem outputLine_chomp (l : Logger) (k : Nat) (msg : String) (now : Time)
    (stack : List Frame) :
    outputLine l k msg now stack =
      formatHeader l now
        (if l.flag &&& (Lshortfile ||| Llongfile) ≠ 0 then Caller stack k else ("", 0)).1
        (if l.flag &&& (Lshortfile ||| Llongfile) ≠ 0 then Caller stack k else ("", 0)).2 ++
        chomp msg ++ "\n" := by
  unfold outputLine
  simp only []
  by_cases h : msg.data.getLast? = some '\n'
  · have hne : ¬ (msg.data = [] ∨ msg.data.getLast? ≠ some '\n') := by
      rintro (h0 | h1)
      · rw [h0] at h
        simp at h
      · exact h1 h
    rw [if_neg hne, String.append_assoc, chomp_newline msg h]
  · rw [if_pos (Or.inr h)]
    unfold chomp
    rw [if_neg h]

/-- The header of a logger with `LstdFlags`: prefix and timestamp. -/
theorem formatHeader_bare (l : Logger) (t : Time) (file : String) (line : Nat)
    (h : l.flag = LstdFlags) :
    formatHeader l t file line = l.pfx ++ timestamp t ++ "" := by
  have f1 : LstdFlags &&& Ldate ≠ 0 := by decide
  have f2 : LstdFlags &&& (Ltime ||| Lmicroseconds) ≠ 0 := by decide
  have f3 : ¬ (LstdFlags &&& Lmicroseconds ≠ 0) := by decide
  have f4 : LstdFlags &&& (Ldate ||| Ltime ||| Lmicroseconds) ≠ 0 := by decide
  have f5 : ¬ (LstdFlags &&& (Lshortfile ||| Llongfile) ≠ 0) := by decide
  unfold formatHeader timestamp
  simp only [h]
  rw [if_pos f1, if_pos f2, if_neg f3, if_pos f4, if_neg f5]
  simp only [String.append_assoc, String.append_empty]

/-- The header of a logger with `LstdFlags|Lshortfile`: prefix, timestamp and
call site. -/
theorem formatHeader_located (l : Logger) (t : Time) (file : String) (line : Nat)
    (h : l.flag = LstdFlags ||| Lshortfile) :
    formatHeader l t file line = l.pfx ++ timestamp t ++ location file line := by
  have f1 : (LstdFlags ||| Lshortfile) &&& Ldate ≠ 0 := by decide
  have f2 : (LstdFlags ||| Lshortfile) &&& (Ltime ||| Lmicroseconds) ≠ 0 := by decide
  have f3 : ¬ ((LstdFlags ||| Lshortfile) &&& Lmicroseconds ≠ 0) := by decide
  have f4 : (LstdFlags ||| Lshortfile) &&& (Ldate ||| Ltime ||| Lmicroseconds) ≠ 0 := by
    decide
  have f5 : (LstdFlags ||| Lshortfile) &&& (Lshortfile ||| Llongfile) ≠ 0 := by decide
  have f6 : (LstdFlags ||| Lshortfile) &&& Lshortfile ≠ 0 := by decide
  unfold formatHeader timestamp location
  simp only [h]
  rw [if_pos f1, if_pos f2, if_neg f3, if_pos f4, if_pos f5, if_pos f6]
  simp only [String.append_assoc, String.append_empty]

/-- The line a logger with `LstdFlags` writes. -/
theorem outputLine_bare (l : Logger) (k : Nat) (msg : String) (now : Time)
    (stack : List Frame) (h : l.flag = LstdFlags) :
    outputLine l k msg now stack = l.pfx ++ timestamp now ++ "" ++ chomp msg ++ "\n" := by
  rw [outputLine_chomp, formatHeader_bare l now _ _ h]

/-- The line a logger with `LstdFlags|Lshortfile` writes. -/
theorem outputLine_located (l : Logger) (k : Nat) (msg : String) (now : Time)
    (stack : List Frame) (h : l.flag = LstdFlags ||| Lshortfile) :
    outputLine l k msg now stack =
      l.pfx ++ timestamp now ++ location (Caller stack k).1 (Caller stack k).2 ++
        chomp msg ++ "\n" := by
  have f5 : l.flag &&& (Lshortfile ||| Llongfile) ≠ 0 := by rw [h]; decide
  rw [outputLine_chomp, formatHeader_located l now _ _ h, if_pos f5]

/-- A write of a known line through a logger that has a writer. -/
theorem write_known_line (s : State) (l : Logger) (k : Nat) (msg line : String)
    (now : Time) (stack : List Frame) (hout : l.out ≠ Writer.nil)
    (hl : outputLine l k msg now stack = line) :
    ∃ w', finish s (l.Output k msg now stack s.world) =
        Outcome.returned { s with world := w' } ∧
      l.out.Write line s.world = some w' := by
  have hw : ∃ w', l.out.Write line s.world = some w' := by
    unfold Writer.Write
    cases ho : l.out with
    | nil => exact absurd ho hout
    | stdout => exact ⟨_, rfl⟩
    | stderr => exact ⟨_, rfl⟩
    | file f => exact ⟨_, rfl⟩
  obtain ⟨w', hw'⟩ := hw
  refine ⟨w', ?_, hw'⟩
  unfold Logger.Output
  rw [hl, hw']
  rfl

theorem paint_no_newline (mode : ColorType) :
    NoNewline (Color.Red.paint mode "[ERROR] ") ∧
    NoNewline (Color.Blue.paint mode "[DEBUG] ") ∧
    NoNewline (Color.Green.paint mode "[>>>>>] ") ∧
    NoNewline (Color.Yellow.paint mode "[<<<<<] ") := by
  cases mode <;> decide

theorem paint_holds_tag (mode : ColorType) :
    (∃ a b, Color.Red.paint mode "[ERROR] " = a ++ "[ERROR]" ++ b) ∧
    (∃ a b, Color.Blue.paint mode "[DEBUG] " = a ++ "[DEBUG]" ++ b) ∧
    (∃ a b, Color.Green.paint mode "[>>>>>] " = a ++ "[>>>>>]" ++ b) ∧
    (∃ a b, Color.Yellow.paint mode "[<<<<<] " = a ++ "[<<<<<]" ++ b) := by
  cases mode
  · exact ⟨⟨"", " ", by decide⟩, ⟨"", " ", by decide⟩, ⟨"", " ", by decide⟩,
      ⟨"", " ", by decide⟩⟩
  · exact ⟨⟨"\x1b[31m", " \x1b[0m", by decide⟩, ⟨"\x1b[34m", " \x1b[0m", by decide⟩,
      ⟨"\x1b[32m", " \x1b[0m", by decide⟩, ⟨"\x1b[33m", " \x1b[0m", by decide⟩⟩

/-! ## Every state the program can be in is good -/

theorem Good_boot (fl : Flags) (mode : ColorType) (w : World) : Good (boot fl mode w) := by
  refine ⟨by simp [boot, New], rfl, rfl, by simp [boot, New], by simp [boot, New],
    by simp [boot, New], by simp [boot, New], rfl, rfl, rfl, rfl,
    ColorType.NoColor, rfl, rfl, rfl, rfl⟩

theorem Good_initLog (config : Config) (env : Env) (s t : State)
    (h : initLog config env s = Outcome.returned t) (hs : Good s) : Good t := by
  have hne : config.HistoryFile ≠ "" := by
    intro he
    simp [initLog, he] at h
  rw [initLog_returns config env s hne] at h
  have ht : t = resolveHistory config env (resolveLogFile config env s) := by
    injection h with h'
    exact h'.symm
  obtain ⟨base, hb, hlog, hstd, -⟩ :=
    resolveHistory_fields config env (resolveLogFile config env s)
  obtain ⟨hnil, hstd1, -, -, -⟩ := resolveLogFile_fields config env s
  have hpfx : s.std.pfx = "" := hs.2.1
  have hflag : s.std.flag = LstdFlags := hs.2.2.1
  rw [ht, hb]
  refine ⟨?_, ?_, ?_, ?_, ?_, ?_, ?_, rfl, rfl, rfl, rfl,
    modeOf (resolveLogFile config env s).colorize, ?_⟩
  · simpa [withSinks, hstd, hstd1, Logger.SetOutput] using hnil
  · simpa [withSinks, hstd, hstd1, Logger.SetOutput] using hpfx
  · simpa [withSinks, hstd, hstd1, Logger.SetOutput] using hflag
  · simpa [withSinks, New] using hnil
  · simpa [withSinks, New] using hnil
  · simpa [withSinks, New] using hnil
  · simpa [withSinks, New] using hnil
  · simp [withSinks, New]

/-- A returning emit call changes nothing but the world. -/
theorem emit_world_only (m : Method) (d : Bool) (format : String) (args : List Arg)
    (ctx : Ctx) (s t : State) (h : emit m d format args ctx s = Outcome.returned t) :
    ∃ w', t = { s with world := w' } := by
  cases d with
  | false =>
    rw [emit_false] at h
    injection h with h'
    exact ⟨s.world, h'.symm⟩
  | true =>
    have key : ∀ o : Option World, finish s o = Outcome.returned t →
        ∃ w', t = { s with world := w' } := by
      intro o ho
      cases o with
      | none => simp [finish] at ho
      | some w' =>
        simp only [finish] at ho
        injection ho with h'
        exact ⟨w', h'.symm⟩
    cases m <;> exact key _ h

theorem Good_of_reachable (s : State) (h : Reachable s) : Good s := by
  induction h with
  | start fl mode w => exact Good_boot fl mode w
  | init config env s t _ hi ih => exact Good_initLog config env s t hi ih
  | call m d format args ctx s t _ hc ih =>
    obtain ⟨w', hw⟩ := emit_world_only m d format args ctx s t hc
    rw [hw]
    exact ih

/-- In a good state one call of an emit method on a true receiver returns and
makes one write to the writer of its sink, of the prefix of the sink, the
timestamp, the call site the method reports, the message without its final
newline, and one newline. -/
theorem emit_writes (m : Method) (format : String) (args : List Arg) (ctx : Ctx)
    (s : State) (hs : Good s) :
    ∃ mode w',
      emit m true format args ctx s = Outcome.returned { s with world := w' } ∧
      (m.sink s).out.Write
        (m.painted mode ++ timestamp ctx.now ++ m.site ctx ++ m.body format args ctx ++ "\n")
        s.world = some w' ∧
      (m.sink s).pfx = m.painted mode ∧
      s.errorLog.pfx = Color.Red.paint mode "[ERROR] " ∧
      s.debugLog.pfx = Color.Blue.paint mode "[DEBUG] " ∧
      s.requestLog.pfx = Color.Green.paint mode "[>>>>>] " ∧
      s.responseLog.pfx = Color.Yellow.paint mode "[<<<<<] " := by
  obtain ⟨hso, hsp, hsf, heo, hdo, hqo, hro, hef, hdf, hqf, hrf, mode, hep, hdp, hqp, hrp⟩ := hs
  refine ⟨mode, ?_⟩
  cases m
  · obtain ⟨w', h1, h2⟩ := write_known_line s s.std 2 (ctx.Sprintf format args) _ ctx.now
      (ctx.libOutput :: ctx.libWrapper :: ⟨ctx.logGo, 88⟩ :: ctx.callers) hso
      (outputLine_bare _ _ _ _ _ hsf)
    rw [hsp] at h2
    exact ⟨w', h1, h2, hsp, hep, hdp, hqp, hrp⟩
  · obtain ⟨w', h1, h2⟩ := write_known_line s s.std 2 (Sprintln args) _ ctx.now
      (ctx.libOutput :: ctx.libWrapper :: ⟨ctx.logGo, 94⟩ :: ctx.callers) hso
      (outputLine_bare _ _ _ _ _ hsf)
    rw [hsp] at h2
    exact ⟨w', h1, h2, hsp, hep, hdp, hqp, hrp⟩
  · obtain ⟨w', h1, h2⟩ := write_known_line s s.debugLog 2 (ctx.Sprintf format args) _ ctx.now
      (ctx.libOutput :: ⟨ctx.logGo, 100⟩ :: ctx.callers) hdo
      (outputLine_located _ _ _ _ _ hdf)
    rw [hdp] at h2
    exact ⟨w', h1, h2, hdp, hep, hdp, hqp, hrp⟩
  · obtain ⟨w', h1, h2⟩ := write_known_line s s.debugLog 2 (Sprintln args) _ ctx.now
      (ctx.libOutput :: ctx.libWrapper :: ⟨ctx.logGo, 107⟩ :: ctx.callers) hdo
      (outputLine_located _ _ _ _ _ hdf)
    rw [hdp] at h2
    exact ⟨w', h1, h2, hdp, hep, hdp, hqp, hrp⟩
  · obtain ⟨w', h1, h2⟩ := write_known_line s s.errorLog 2 (ctx.Sprintf format args) _ ctx.now
      (ctx.libOutput :: ctx.libWrapper :: ⟨ctx.logGo, 113⟩ :: ctx.callers) heo
      (outputLine_located _ _ _ _ _ hef)
    rw [hep] at h2
    exact ⟨w', h1, h2, hep, hep, hdp, hqp, hrp⟩
  · obtain ⟨w', h1, h2⟩ := write_known_line s s.errorLog 2 (Sprintln args) _ ctx.now
      (ctx.libOutput :: ctx.libWrapper :: ⟨ctx.logGo, 119⟩ :: ctx.callers) heo
      (outputLine_located _ _ _ _ _ hef)
    rw [hep] at h2
    exact ⟨w', h1, h2, hep, hep, hdp, hqp, hrp⟩
  · obtain ⟨w', h1, h2⟩ := write_known_line s s.requestLog 3 (ctx.Sprintf format args) _
      ctx.now (ctx.libOutput :: ⟨ctx.logGo, 125⟩ :: ctx.callers) hqo
      (outputLine_located _ _ _ _ _ hqf)
    rw [hqp] at h2
    exact ⟨w', h1, h2, hqp, hep, hdp, hqp, hrp⟩
  · obtain ⟨w', h1, h2⟩ := write_known_line s s.responseLog 2 (ctx.Sprintf format args) _
      ctx.now (ctx.libOutput :: ctx.libWrapper :: ⟨ctx.logGo, 132⟩ :: ctx.callers) hro
      (outputLine_located _ _ _ _ _ hrf)
    rw [hrp] at h2
    exact ⟨w', h1, h2, hrp, hep, hdp, hqp, hrp⟩

/-! ## Enabled channels -/

/-- A message is its `chomp`, or its `chomp` followed by a newline. -/
theorem chomp_cases (t : String) : t = chomp t ∨ t = chomp t ++ "\n" := by
  by_cases h : t.data.getLast? = some '\n'
  · exact Or.inr (chomp_newline t h).symm
  · left
    unfold chomp
    rw [if_neg h]

/-- C5, refuted as stated: on the enabled error channel one `Println` of the
operand `a\nb`, and one `Printf` of the format `a\nb`, each put two lines on
the destination. -/
theorem emit_message_with_newline_two_lines :
    (errorLogging.Println true [Arg.str "a\nb"] sampleCtx bootDefault).state.world.stdout =
      "[ERROR] 2015/03/07 09:05:01 log.go:119: a\nb\n" ∧
    (errorLogging.Println true [Arg.str "a\nb"]
      sampleCtx bootDefault).state.world.stdout.data.count (Char.ofNat 10) = 2 ∧
    (errorLogging.Printf true "a\nb" [] sampleCtx bootDefault).state.world.stdout =
      "[ERROR] 2015/03/07 09:05:01 log.go:113: a\nb\n" ∧
    (errorLogging.Printf true "a\nb" []
      sampleCtx bootDefault).state.world.stdout.data.count (Char.ofNat 10) = 2 := by
  refine ⟨by decide, by decide, by decide, by decide⟩

/-- C5, amended: in every state the program can be in, for every format and
operands, one call of an emit method on a true receiver returns and makes one
write to the writer of its sink: the prefix of the sink, which holds the tag of
the channel (and is empty, like the call site, on the info channel), the
timestamp, the call site, the formatted message without its final newline if
it ends in one, and one newline.  Prefix and timestamp never hold a newline, so
what is written is one line ended by a single newline exactly when neither the
message before its final newline nor the reported file name holds one. -/
theorem emit_enabled_one_line (m : Method) (format : String) (args : List Arg)
    (ctx : Ctx) (s : State) (hs : Reachable s) :
    ∃ mode w',
      emit m true format args ctx s = Outcome.returned { s with world := w' } ∧
      (m.sink s).out.Write
        (m.painted mode ++ timestamp ctx.now ++ m.site ctx ++ m.body format args ctx ++ "\n")
        s.world = some w' ∧
      (m.sink s).pfx = m.painted mode ∧
      (∃ a b, m.painted mode = a ++ m.tag ++ b) ∧
      (m.tag = "" → m.painted mode = "" ∧ m.site ctx = "") ∧
      (m.message format args ctx = m.body format args ctx ∨
        m.message format args ctx = m.body format args ctx ++ "\n") ∧
      NoNewline (m.painted mode ++ timestamp ctx.now) ∧
      (NoNewline (m.painted mode ++ timestamp ctx.now ++ m.site ctx ++
          m.body format args ctx) ↔
        NoNewline (m.site ctx) ∧ NoNewline (m.body format args ctx)) := by
  obtain ⟨mode, w', h1, h2, h3, -⟩ :=
    emit_writes m format args ctx s (Good_of_reachable s hs)
  obtain ⟨ne, nd, nq, nr⟩ := paint_no_newline mode
  obtain ⟨te, td, tq, tr⟩ := paint_holds_tag mode
  have hpaint : NoNewline (m.painted mode) := by
    cases m
    · exact (by decide : NoNewline "")
    · exact (by decide : NoNewline "")
    · exact nd
    · exact nd
    · exact ne
    · exact ne
    · exact nq
    · exact nr
  have htag : ∃ a b, m.painted mode = a ++ m.tag ++ b := by
    cases m
    · exact ⟨"", "", rfl⟩
    · exact ⟨"", "", rfl⟩
    · exact td
    · exact td
    · exact te
    · exact te
    · exact tq
    · exact tr
  have hinfo : m.tag = "" → m.painted mode = "" ∧ m.site ctx = "" := by
    cases m
    · exact fun _ => ⟨rfl, rfl⟩
    · exact fun _ => ⟨rfl, rfl⟩
    all_goals exact fun h => absurd h (by decide)
  have hhead : NoNewline (m.painted mode ++ timestamp ctx.now) :=
    NoNewline_cat _ _ hpaint (timestamp_no_newline ctx.now)
  refine ⟨mode, w', h1, h2, h3, htag, hinfo, chomp_cases _, hhead, ?_⟩
  rw [NoNewline_append, NoNewline_append]
  constructor
  · rintro ⟨⟨-, hsite⟩, hbody⟩
    exact ⟨hsite, hbody⟩
  · rintro ⟨hsite, hbody⟩
    exact ⟨⟨hhead, hsite⟩, hbody⟩

/-- C5, amended, at a concrete input: the error `Printf` of the format `x\n`
before `initLog`, called from `proxy.go:40`. -/
theorem emit_enabled_one_line_witness :
    Reachable bootDefault ∧
    ∃ mode w',
      emit Method.errorPrintf true "x\n" [] sampleCtx bootDefault =
        Outcome.returned { bootDefault with world := w' } ∧
      (Method.errorPrintf.sink bootDefault).out.Write
        (Method.errorPrintf.painted mode ++ timestamp sampleCtx.now ++
          Method.errorPrintf.site sampleCtx ++ Method.errorPrintf.body "x\n" [] sampleCtx ++
          "\n")
        bootDefault.world = some w' ∧
      (Method.errorPrintf.sink bootDefault).pfx = Method.errorPrintf.painted mode ∧
      (∃ a b, Method.errorPrintf.painted mode = a ++ Method.errorPrintf.tag ++ b) ∧
      (Method.errorPrintf.tag = "" →
        Method.errorPrintf.painted mode = "" ∧ Method.errorPrintf.site sampleCtx = "") ∧
      (Method.errorPrintf.message "x\n" [] sampleCtx =
          Method.errorPrintf.body "x\n" [] sampleCtx ∨
        Method.errorPrintf.message "x\n" [] sampleCtx =
          Method.errorPrintf.body "x\n" [] sampleCtx ++ "\n") ∧
      NoNewline (Method.errorPrintf.painted mode ++ timestamp sampleCtx.now) ∧
      (NoNewline (Method.errorPrintf.painted mode ++ timestamp sampleCtx.now ++
          Method.errorPrintf.site sampleCtx ++ Method.errorPrintf.body "x\n" [] sampleCtx) ↔
        NoNewline (Method.errorPrintf.site sampleCtx) ∧
          NoNewline (Method.errorPrintf.body "x\n" [] sampleCtx)) :=
  ⟨Reachable.start _ _ _,
    emit_enabled_one_line Method.errorPrintf "x\n" [] sampleCtx bootDefault
      (Reachable.start _ _ _)⟩

/-! ## Call depth and the reported call site -/

/-- C8, refuted as stated: called from `proxy.go:40`, itself called from
`main.go:7`, the debug `Printf` reports `proxy.go:40`, but the request `Printf`
reports `main.go:7`, the caller of its caller; what it does differs from
handing the message to `Output` with depth two. -/
theorem requestPrintf_skips_three_frames :
    (debugLogging.Printf true "x" [] sampleCtx bootDefault).state.world.stdout =
      "[DEBUG] 2015/03/07 09:05:01 proxy.go:40: x\n" ∧
    (requestLogging.Printf true "x" [] sampleCtx bootDefault).state.world.stdout =
      "[>>>>>] 2015/03/07 09:05:01 main.go:7: x\n" ∧
    requestLogging.Printf true "x" [] sampleCtx bootDefault ≠
      finish bootDefault (bootDefault.requestLog.Output 2 "x" sampleCtx.now
        (sampleCtx.libOutput :: ⟨sampleCtx.logGo, 125⟩ :: sampleCtx.callers)
        bootDefault.world) := by
  refine ⟨by decide, by decide, by decide⟩

/-- C8, amended: the debug `Printf` hands the formatted message to `Output`
with depth two, so that the file and line reported are those of the direct
caller of the facade method; the request `Printf` hands it over with depth
three, so that the file and line reported are those of the caller of the direct
caller; every other emit method uses the standard depth two of the `Printf` or
`Println` of its logger.  For every state the program can be in the statement
gives, next to each depth, the line the method writes: with the call site of
`c1` for the debug `Printf`, of `c2` for the request `Printf`, of the facade
method in `log.go` for the debug `Println`, error and response methods, and
with no call site for the info methods, whose logger has no file flag. -/
theorem emit_call_depths (format : String) (args : List Arg) (ctx : Ctx) (s : State)
    (c1 c2 : Frame) (rest : List Frame) (hs : Reachable s) :
    (debugLogging.Printf true format args { ctx with callers := c1 :: c2 :: rest } s =
        finish s (s.debugLog.Output 2 (ctx.Sprintf format args) ctx.now
          (ctx.libOutput :: ⟨ctx.logGo, 100⟩ :: c1 :: c2 :: rest) s.world) ∧
      ∃ w', debugLogging.Printf true format args { ctx with callers := c1 :: c2 :: rest } s =
          Outcome.returned { s with world := w' } ∧
        s.debugLog.out.Write
          (s.debugLog.pfx ++ timestamp ctx.now ++ location c1.file c1.line ++
            chomp (ctx.Sprintf format args) ++ "\n") s.world = some w') ∧
    (requestLogging.Printf true format args { ctx with callers := c1 :: c2 :: rest } s =
        finish s (s.requestLog.Output 3 (ctx.Sprintf format args) ctx.now
          (ctx.libOutput :: ⟨ctx.logGo, 125⟩ :: c1 :: c2 :: rest) s.world) ∧
      ∃ w', requestLogging.Printf true format args { ctx with callers := c1 :: c2 :: rest } s =
          Outcome.returned { s with world := w' } ∧
        s.requestLog.out.Write
          (s.requestLog.pfx ++ timestamp ctx.now ++ location c2.file c2.line ++
            chomp (ctx.Sprintf format args) ++ "\n") s.world = some w') ∧
    (debugLogging.Println true args { ctx with callers := c1 :: c2 :: rest } s =
        finish s (s.debugLog.Output 2 (Sprintln args) ctx.now
          (ctx.libOutput :: ctx.libWrapper :: ⟨ctx.logGo, 107⟩ :: c1 :: c2 :: rest) s.world) ∧
      ∃ w', debugLogging.Println true args { ctx with callers := c1 :: c2 :: rest } s =
          Outcome.returned { s with world := w' } ∧
        s.debugLog.out.Write
          (s.debugLog.pfx ++ timestamp ctx.now ++ location ctx.logGo 107 ++
            chomp (Sprintln args) ++ "\n") s.world = some w') ∧
    (errorLogging.Printf true format args { ctx with callers := c1 :: c2 :: rest } s =
        finish s (s.errorLog.Output 2 (ctx.Sprintf format args) ctx.now
          (ctx.libOutput :: ctx.libWrapper :: ⟨ctx.logGo, 113⟩ :: c1 :: c2 :: rest) s.world) ∧
      ∃ w', errorLogging.Printf true format args { ctx with callers := c1 :: c2 :: rest } s =
          Outcome.returned { s with world := w' } ∧
        s.errorLog.out.Write
          (s.errorLog.pfx ++ timestamp ctx.now ++ location ctx.logGo 113 ++
            chomp (ctx.Sprintf format args) ++ "\n") s.world = some w') ∧
    (errorLogging.Println true args { ctx with callers := c1 :: c2 :: rest } s =
        finish s (s.errorLog.Output 2 (Sprintln args) ctx.now
          (ctx.libOutput :: ctx.libWrapper :: ⟨ctx.logGo, 119⟩ :: c1 :: c2 :: rest) s.world) ∧
      ∃ w', errorLogging.Println true args { ctx with callers := c1 :: c2 :: rest } s =
          Outcome.returned { s with world := w' } ∧
        s.errorLog.out.Write
          (s.errorLog.pfx ++ timestamp ctx.now ++ location ctx.logGo 119 ++
            chomp (Sprintln args) ++ "\n") s.world = some w') ∧
    (responseLogging.Printf true format args { ctx with callers := c1 :: c2 :: rest } s =
        finish s (s.responseLog.Output 2 (ctx.Sprintf format args) ctx.now
          (ctx.libOutput :: ctx.libWrapper :: ⟨ctx.logGo, 132⟩ :: c1 :: c2 :: rest) s.world) ∧
      ∃ w', responseLogging.Printf true format args { ctx with callers := c1 :: c2 :: rest } s =
          Outcome.returned { s with world := w' } ∧
        s.responseLog.out.Write
          (s.responseLog.pfx ++ timestamp ctx.now ++ location ctx.logGo 132 ++
            chomp (ctx.Sprintf format args) ++ "\n") s.world = some w') ∧
    (infoLogging.Printf true format args { ctx with callers := c1 :: c2 :: rest } s =
        finish s (s.std.Output 2 (ctx.Sprintf format args) ctx.now
          (ctx.libOutput :: ctx.libWrapper :: ⟨ctx.logGo, 88⟩ :: c1 :: c2 :: rest) s.world) ∧
      ∃ w', infoLogging.Printf true format args { ctx with callers := c1 :: c2 :: rest } s =
          Outcome.returned { s with world := w' } ∧
        s.std.out.Write
          (timestamp ctx.now ++
            chomp (ctx.Sprintf format args) ++ "\n") s.world = some w') ∧
    (infoLogging.Println true args { ctx with callers := c1 :: c2 :: rest } s =
        finish s (s.std.Output 2 (Sprintln args) ctx.now
          (ctx.libOutput :: ctx.libWrapper :: ⟨ctx.logGo, 94⟩ :: c1 :: c2 :: rest) s.world) ∧
      ∃ w', infoLogging.Println true args { ctx with callers := c1 :: c2 :: rest } s =
          Outcome.returned { s with world := w' } ∧
        s.std.out.Write
          (timestamp ctx.now ++
            chomp (Sprintln args) ++ "\n") s.world = some w') := by
  have g := Good_of_reachable s hs
  refine ⟨⟨rfl, ?_⟩, ⟨rfl, ?_⟩, ⟨rfl, ?_⟩, ⟨rfl, ?_⟩, ⟨rfl, ?_⟩, ⟨rfl, ?_⟩, ⟨rfl, ?_⟩,
    ⟨rfl, ?_⟩⟩
  · obtain ⟨mode, w', h1, h2, -, he, hd, hq, hr⟩ :=
      emit_writes Method.debugPrintf format args { ctx with callers := c1 :: c2 :: rest } s g
    exact ⟨w', h1, by rw [hd]; exact h2⟩
  · obtain ⟨mode, w', h1, h2, -, he, hd, hq, hr⟩ :=
      emit_writes Method.requestPrintf format args { ctx with callers := c1 :: c2 :: rest } s g
    exact ⟨w', h1, by rw [hq]; exact h2⟩
  · obtain ⟨mode, w', h1, h2, -, he, hd, hq, hr⟩ :=
      emit_writes Method.debugPrintln format args { ctx with callers := c1 :: c2 :: rest } s g
    exact ⟨w', h1, by rw [hd]; exact h2⟩
  · obtain ⟨mode, w', h1, h2, -, he, hd, hq, hr⟩ :=
      emit_writes Method.errorPrintf format args { ctx with callers := c1 :: c2 :: rest } s g
    exact ⟨w', h1, by rw [he]; exact h2⟩
  · obtain ⟨mode, w', h1, h2, -, he, hd, hq, hr⟩ :=
      emit_writes Method.errorPrintln format args { ctx with callers := c1 :: c2 :: rest } s g
    exact ⟨w', h1, by rw [he]; exact h2⟩
  · obtain ⟨mode, w', h1, h2, -, he, hd, hq, hr⟩ :=
      emit_writes Method.responsePrintf format args { ctx with callers := c1 :: c2 :: rest } s g
    exact ⟨w', h1, by rw [hr]; exact h2⟩
  · obtain ⟨mode, w', h1, h2, -⟩ :=
      emit_writes Method.infoPrintf format args { ctx with callers := c1 :: c2 :: rest } s g
    refine ⟨w', h1, ?_⟩
    simp only [Method.painted, Method.site, Method.body, Method.message,
      String.append_empty, String.empty_append] at h2
    exact h2
  · obtain ⟨mode, w', h1, h2, -⟩ :=
      emit_writes Method.infoPrintln format args { ctx with callers := c1 :: c2 :: rest } s g
    refine ⟨w', h1, ?_⟩
    simp only [Method.painted, Method.site, Method.body, Method.message,
      String.append_empty, String.empty_append] at h2
    exact h2

/-- C8, amended, at a concrete input: the state before `initLog`, a call from
`proxy.go:40`, itself called from `main.go:7`. -/
theorem emit_call_depths_witness :
    Reachable bootDefault ∧
    (debugLogging.Printf true "x" []
          { sampleCtx with callers := sampleCaller :: sampleOuter :: [] } bootDefault =
        finish bootDefault (bootDefault.debugLog.Output 2 (sampleCtx.Sprintf "x" []) sampleCtx.now
          (sampleCtx.libOutput :: ⟨sampleCtx.logGo, 100⟩ ::
            sampleCaller :: sampleOuter :: [])
          bootDefault.world) ∧
      ∃ w', debugLogging.Printf true "x" []
            { sampleCtx with callers := sampleCaller :: sampleOuter :: [] } bootDefault =
          Outcome.returned { bootDefault with world := w' } ∧
        bootDefault.debugLog.out.Write
          (bootDefault.debugLog.pfx ++ timestamp sampleCtx.now ++
            location sampleCaller.file sampleCaller.line ++
            chomp (sampleCtx.Sprintf "x" []) ++ "\n") bootDefault.world = some w') ∧
    (requestLogging.Printf true "x" []
          { sampleCtx with callers := sampleCaller :: sampleOuter :: [] } bootDefault =
        finish bootDefault (bootDefault.requestLog.Output 3 (sampleCtx.Sprintf "x" []) sampleCtx.now
          (sampleCtx.libOutput :: ⟨sampleCtx.logGo, 125⟩ ::
            sampleCaller :: sampleOuter :: [])
          bootDefault.world) ∧
      ∃ w', requestLogging.Printf true "x" []
            { sampleCtx with callers := sampleCaller :: sampleOuter :: [] } bootDefault =
          Outcome.returned { bootDefault with world := w' } ∧
        bootDefault.requestLog.out.Write
          (bootDefault.requestLog.pfx ++ timestamp sampleCtx.now ++
            location sampleOuter.file sampleOuter.line ++
            chomp (sampleCtx.Sprintf "x" []) ++ "\n") bootDefault.world = some w') ∧
    (debugLogging.Println true []
          { sampleCtx with callers := sampleCaller :: sampleOuter :: [] } bootDefault =
        finish bootDefault (bootDefault.debugLog.Output 2 (Sprintln []) sampleCtx.now
          (sampleCtx.libOutput :: sampleCtx.libWrapper :: ⟨sampleCtx.logGo, 107⟩ ::
            sampleCaller :: sampleOuter :: [])
          bootDefault.world) ∧
      ∃ w', debugLogging.Println true []
            { sampleCtx with callers := sampleCaller :: sampleOuter :: [] } bootDefault =
          Outcome.returned { bootDefault with world := w' } ∧
        bootDefault.debugLog.out.Write
          (bootDefault.debugLog.pfx ++ timestamp sampleCtx.now ++
            location sampleCtx.logGo 107 ++
            chomp (Sprintln []) ++ "\n") bootDefault.world = some w') ∧
    (errorLogging.Printf true "x" []
          { sampleCtx with callers := sampleCaller :: sampleOuter :: [] } bootDefault =
        finish bootDefault (bootDefault.errorLog.Output 2 (sampleCtx.Sprintf "x" []) sampleCtx.now
          (sampleCtx.libOutput :: sampleCtx.libWrapper :: ⟨sampleCtx.logGo, 113⟩ ::
            sampleCaller :: sampleOuter :: [])
          bootDefault.world) ∧
      ∃ w', errorLogging.Printf true "x" []
            { sampleCtx with callers := sampleCaller :: sampleOuter :: [] } bootDefault =
          Outcome.returned { bootDefault with world := w' } ∧
        bootDefault.errorLog.out.Write
          (bootDefault.errorLog.pfx ++ timestamp sampleCtx.now ++
            location sampleCtx.logGo 113 ++
            chomp (sampleCtx.Sprintf "x" []) ++ "\n") bootDefault.world = some w') ∧
    (errorLogging.Println true []
          { sampleCtx with callers := sampleCaller :: sampleOuter :: [] } bootDefault =
        finish bootDefault (bootDefault.errorLog.Output 2 (Sprintln []) sampleCtx.now
          (sampleCtx.libOutput :: sampleCtx.libWrapper :: ⟨sampleCtx.logGo, 119⟩ ::
            sampleCaller :: sampleOuter :: [])
          bootDefault.world) ∧
      ∃ w', errorLogging.Println true []
            { sampleCtx with callers := sampleCaller :: sampleOuter :: [] } bootDefault =
          Outcome.returned { bootDefault with world := w' } ∧
        bootDefault.errorLog.out.Write
          (bootDefault.errorLog.pfx ++ timestamp sampleCtx.now ++
            location sampleCtx.logGo 119 ++
            chomp (Sprintln []) ++ "\n") bootDefault.world = some w') ∧
    (responseLogging.Printf true "x" []
          { sampleCtx with callers := sampleCaller :: sampleOuter :: [] } bootDefault =
        finish bootDefault (bootDefault.responseLog.Output 2 (sampleCtx.Sprintf "x" []) sampleCtx.now
          (sampleCtx.libOutput :: sampleCtx.libWrapper :: ⟨sampleCtx.logGo, 132⟩ ::
            sampleCaller :: sampleOuter :: [])
          bootDefault.world) ∧
      ∃ w', responseLogging.Printf true "x" []
            { sampleCtx with callers := sampleCaller :: sampleOuter :: [] } bootDefault =
          Outcome.returned { bootDefault with world := w' } ∧
        bootDefault.responseLog.out.Write
          (bootDefault.responseLog.pfx ++ timestamp sampleCtx.now ++
            location sampleCtx.logGo 132 ++
            chomp (sampleCtx.Sprintf "x" []) ++ "\n") bootDefault.world = some w') ∧
    (infoLogging.Printf true "x" []
          { sampleCtx with callers := sampleCaller :: sampleOuter :: [] } bootDefault =
        finish bootDefault (bootDefault.std.Output 2 (sampleCtx.Sprintf "x" []) sampleCtx.now
          (sampleCtx.libOutput :: sampleCtx.libWrapper :: ⟨sampleCtx.logGo, 88⟩ ::
            sampleCaller :: sampleOuter :: [])
          bootDefault.world) ∧
      ∃ w', infoLogging.Printf true "x" []
            { sampleCtx with callers := sampleCaller :: sampleOuter :: [] } bootDefault =
          Outcome.returned { bootDefault with world := w' } ∧
        bootDefault.std.out.Write
          (timestamp sampleCtx.now ++
            chomp (sampleCtx.Sprintf "x" []) ++ "\n") bootDefault.world = some w') ∧
    (infoLogging.Println true []
          { sampleCtx with callers := sampleCaller :: sampleOuter :: [] } bootDefault =
        finish bootDefault (bootDefault.std.Output 2 (Sprintln []) sampleCtx.now
          (sampleCtx.libOutput :: sampleCtx.libWrapper :: ⟨sampleCtx.logGo, 94⟩ ::
            sampleCaller :: sampleOuter :: [])
          bootDefault.world) ∧
      ∃ w', infoLogging.Println true []
            { sampleCtx with callers := sampleCaller :: sampleOuter :: [] } bootDefault =
          Outcome.returned { bootDefault with world := w' } ∧
        bootDefault.std.out.Write
          (timestamp sampleCtx.now ++
            chomp (Sprintln []) ++ "\n") bootDefault.world = some w') :=
  ⟨Reachable.start _ _ _,
    emit_call_depths "x" [] sampleCtx bootDefault sampleCaller sampleOuter []
      (Reachable.start _ _ _)⟩

end Cow
